import Mathlib

/-!
# Verification of the geobipy rj-MCMC inversion core

A shallow embedding, in Lean 4, of the parts of the geobipy source that the
specification's claims are about:

* `Inference1D.update`, `Inference1D.accept_reject` and the `Inference1D.infer`
  loop (`src/geobipy/src/inversion/Inference1D.py`), embedded as a state
  machine over `State` with the stochastic choices (acceptance draws, candidate
  values produced by the forward model and perturbation kernel) supplied as an
  input trace of `StepInput`s;
* `Inference1D.writeHdf` / `Inference1D.createHdf` / `Inference1D.fromHdf`,
  embedded at the level of Python name resolution and dataset keys;
* `Mesh._credible_intervals` / `Mesh._percentile`
  (`src/geobipy/src/classes/mesh/Mesh.py`) for one-dimensional meshes;
* `FdemSystem.lamda0` / `lamda1` / `w0` / `w1` and `FdemSystem.__deepcopy__`
  (`src/geobipy/src/classes/system/FdemSystem.py`), plus
  `FdemDataPoint.__deepcopy__`
  (`src/geobipy/src/classes/data/datapoint/FdemDataPoint.py`).

Numeric state is embedded over `ℚ` (the Python code computes with IEEE floats;
the claims under test are about control flow, counting and exact algebraic
form, not float rounding, so exact arithmetic is the faithful idealisation).
The Hankel abscissae of `FdemSystem` involve `10 ^ x` for non-integer `x` and
are embedded over `ℝ`.

Python exceptions are embedded with `Except PyErr`.  Python identifiers that
appear as data (attribute names, dataset keys) are the enumeration `PyName`.
-/

/-- Python identifiers that the embedding manipulates as data: attribute
names, local variable names and HDF dataset keys. -/
inductive PyName where
  | self | parent | index | fiducials | hdfFile | i | kwargs | fileName
  | frequencies | transmitterLoops | receiverLoops | loopOffsets
  | loopSeparation | nFrequencies | lamda0 | lamda02 | lamda1 | lamda12
  | w0 | w1 | summary | deepcopy | read | toHdf | fromHdf | Bcast | Isend
  | Irecv | fileInformation | getTensorID | getComponentID
  | underscore_frequencies | underscore_transmitterLoops
  | underscore_receiverLoops | underscore_loopOffsets
  | underscore_w0 | underscore_lamda0 | underscore_lamda02
  | underscore_w1 | underscore_lamda1 | underscore_lamda12
  | iteration | burned_in_iteration | best_iteration | burned_in
  | multiplier | invtime | savetime | acceptance_rate | phids | data
  | halfspace | model | rate | ratex | update_plot_every | interactive_plot
  | reciprocate_parameter | limits | n_markov_chains | nsystems
deriving DecidableEq

/-- Python exceptions that the embedded code can raise. -/
inductive PyErr where
  | nameError (n : PyName)
  | attributeError (n : PyName)
  | typeErrorArity
  | keyError (n : PyName)
deriving DecidableEq

/-- The earth model as the sampler state sees it: per-layer values, plus the
accumulated-update counter of its attached posterior histograms.
Modelled from the spec: `Model1D` itself lives outside `src/`; the spec's
§3 "Posterior accumulators" describes posteriors as histograms whose
`update_posteriors` appends the current state and whose `reset_posteriors`
clears them, which is all the claims use, so the accumulator is abstracted
to the number of accumulated updates. -/
structure Model where
  values : List ℚ
  posterior_count : ℕ
deriving DecidableEq

/-- The datapoint as the sampler state sees it: the active-channel mask, the
flag `relative_error.hasPrior`, and the accumulated-update counter of its
posteriors.  Modelled from the spec for the same reason as `Model`. -/
structure Datapoint where
  active : List Bool
  relative_error_hasPrior : Bool
  posterior_count : ℕ
deriving DecidableEq

/-- `sum(self.datapoint.active)`: numpy sums a boolean mask to the number of
`True` entries, the number of active channels. -/
def target_misfit (dp : Datapoint) : ℚ :=
  (dp.active.count true : ℕ)

/-- `numpy.isclose(a, b, rtol=1e-1, atol=1e-2)`, which is
`|a - b| <= atol + rtol * |b|`. -/
def isclose (a b : ℚ) : Bool :=
  decide (|a - b| ≤ 1 / 100 + (1 / 10) * |b|)

/-- Configuration fixed by `Inference1D.__init__` / `initialize` before the
sampling loop starts. `kwargs_multiplier` models the attribute access
`self.kwargs['multiplier']` in `update`: `some m` if the instance has a
`kwargs` attribute holding key `'multiplier'` with value `m`, `none` if the
attribute is missing (an `AttributeError` on access). -/
structure Config where
  n_markov_chains : ℕ
  update_plot_every : ℕ
  ignore_likelihood : Bool
  kwargs_multiplier : Option ℚ
deriving DecidableEq

/-- Neither `Inference1D.__init__` nor any other method of the class ever
assigns `self.kwargs` (the `**kwargs` parameter of `__init__` is dropped),
so the attribute lookup `self.kwargs` in `update` finds nothing: the value
of `Config.kwargs_multiplier` for every inference the code can construct. -/
def inference1d_kwargs_attribute : Option ℚ := none

/-- The mutable state of one `Inference1D` chain.

The fields mirror the attributes touched by `accept_reject`/`update`.
`data_misfit_writes` logs the values written to `data_misfit_v[iteration-1]`,
`acceptance_writes` logs the `(slot, value)` pairs written into
`acceptance_rate`, and `misfit_posterior_count` is the accumulator of
`data_misfit_v.posterior` (abstracted like `Model.posterior_count`).
`posterior_log`, `log_since_reset` and `burnin_iteration_writes` are history
(ghost) variables: they record, without influencing any branch, the
log-posterior seen at each `update`, the log-posteriors seen since the last
reset of the best record, and each iteration at which `burned_in_iteration`
is assigned inside the loop. -/
structure State where
  iteration : ℕ
  burned_in : Bool
  burned_in_iteration : ℕ
  best_iteration : ℕ
  n_target_hits : ℕ
  relative_chi_squared_fit : ℚ
  multiplier : ℚ
  accepted : ℕ
  data_misfit : ℚ
  prior : ℚ
  likelihood : ℚ
  posterior : ℚ
  model : Model
  datapoint : Datapoint
  best_model : Model
  best_datapoint : Datapoint
  best_posterior : ℚ
  misfit_posterior_count : ℕ
  data_misfit_writes : List ℚ
  acceptance_writes : List (ℕ × ℚ)
  posterior_log : List ℚ
  log_since_reset : List ℚ
  burnin_iteration_writes : List ℕ
deriving DecidableEq

/-- `update`, lines 592-594: `self.iteration += 1` and
`self.data_misfit_v[self.iteration - 1] = self.data_misfit`; the ghost logs
record the current posterior at the same point. -/
def record_step (s : State) : State :=
  { s with
    iteration := s.iteration + 1
    data_misfit_writes := s.data_misfit_writes ++ [s.data_misfit]
    posterior_log := s.posterior_log ++ [s.posterior]
    log_since_reset := s.log_since_reset ++ [s.posterior] }

/-- `update`, lines 597-614: the burn-in detector.  When not yet burned in,
count an iteration as a target hit when `iteration > 10000` and the data
misfit is `isclose` to `multiplier * target_misfit`; declare burn-in when
`iteration > 10000` and either `relative_chi_squared_fit < 1.0` or the hit
counter exceeds 1000.  On the transition, record the burn-in iteration, seed
the best record with the current state, and reset all posteriors. -/
def burnin_step (s : State) : State :=
  if s.burned_in then s
  else
    let s1 :=
      if 10000 < s.iteration ∧
          isclose s.data_misfit (s.multiplier * target_misfit s.datapoint) = true then
        { s with n_target_hits := s.n_target_hits + 1 }
      else s
    if (10000 < s1.iteration ∧ s1.relative_chi_squared_fit < 1) ∨
        (10000 < s1.iteration ∧ 1000 < s1.n_target_hits) then
      { s1 with
        burned_in := true
        burned_in_iteration := s1.iteration
        best_iteration := s1.iteration
        best_model := s1.model
        best_datapoint := s1.datapoint
        best_posterior := s1.posterior
        misfit_posterior_count := 0
        model := { s1.model with posterior_count := 0 }
        datapoint := { s1.datapoint with posterior_count := 0 }
        log_since_reset := [s1.posterior]
        burnin_iteration_writes := s1.burnin_iteration_writes ++ [s1.iteration] }
    else s1

/-- `update`, lines 616-620: keep the best record at the running maximum. -/
def best_step (s : State) : State :=
  if s.best_posterior < s.posterior then
    { s with
      best_iteration := s.iteration
      best_model := s.model
      best_datapoint := s.datapoint
      best_posterior := s.posterior }
  else s

/-- `update`, lines 622-625: at a window boundary, write
`100 * accepted / update_plot_every` into slot
`iteration / update_plot_every - 1` of `acceptance_rate` and reset the
acceptance counter. -/
def window_step (w : ℕ) (s : State) : State :=
  if 0 < s.iteration ∧ s.iteration % w = 0 then
    { s with
      acceptance_writes :=
        s.acceptance_writes ++
          [(s.iteration / w - 1, 100 * (s.accepted : ℚ) / (w : ℚ))]
      accepted := 0 }
  else s

/-- `update`, lines 627-635: at a window boundary, before burn-in and when the
relative error has no prior attached, execute
`self.multiplier *= self.kwargs['multiplier']`.  The attribute access
`self.kwargs` raises `AttributeError` when the instance has no such
attribute (see `inference1d_kwargs_attribute`). -/
def multiplier_step (cfg : Config) (s : State) : Except PyErr State :=
  if s.iteration % cfg.update_plot_every = 0 ∧ s.burned_in = false ∧
      s.datapoint.relative_error_hasPrior = false then
    match cfg.kwargs_multiplier with
    | none => Except.error (PyErr.attributeError PyName.kwargs)
    | some m => Except.ok { s with multiplier := s.multiplier * m }
  else Except.ok s

/-- `update`, lines 639-642: `self.model.update_posteriors(0.5)` and
`self.datapoint.update_posteriors()` run on every call. -/
def posteriors_step (s : State) : State :=
  { s with
    model := { s.model with posterior_count := s.model.posterior_count + 1 }
    datapoint := { s.datapoint with posterior_count := s.datapoint.posterior_count + 1 } }

/-- `Inference1D.update` (lines 589-642), as the sequential composition of its
blocks.  The only statement that can raise is the multiplier adaptation. -/
def update (cfg : Config) (s : State) : Except PyErr State :=
  (multiplier_step cfg (window_step cfg.update_plot_every (best_step (burnin_step (record_step s))))).map
    posteriors_step

/-- One iteration's worth of oracle input: everything `accept_reject` obtains
from the perturbation kernel, the forward model and the pseudo-random
generator.  `perturb_raises` is true when `self.model.perturb(observation)`
raises (singular local covariance, Cholesky failure, ...).  A prior value of
`none` models `-inf`.  `accept_draw` is the spec's §4.G acceptance test
`exp(log ratio) > uniform()`, modelled as an oracle because `cF.expReal` and
the generator live outside `src/` (it is `false` whenever the exponent
over/underflows to the reject side, per the `except` branch). -/
structure StepInput where
  perturb_raises : Bool
  datapoint_prior1 : Option ℚ
  model_prior1 : Option ℚ
  likelihood1 : ℚ
  data_misfit1 : ℚ
  model1 : Model
  datapoint1 : Datapoint
  accept_draw : Bool
deriving DecidableEq

/-- The three ways `accept_reject` can come back to `infer`:
`raised` is `return True` from the `except` branch, `early` is the bare
`return` on an `-inf` prior (Python `None`), `done a` is the normal
`return False` with `a` recording whether the proposal was accepted. -/
inductive ARResult where
  | raised
  | early
  | done (accepted : Bool)
deriving DecidableEq

/-- Truthiness of the returned value as `infer` tests it with `not failed`:
only `True` (i.e. `raised`) is truthy. -/
def ARResult.failed : ARResult → Bool
  | .raised => true
  | _ => false

/-- `Inference1D.accept_reject` (lines 455-530).  The candidate model and
datapoint, their prior/likelihood/misfit values and the acceptance test are
supplied by `inp`.  On `perturb_raises` the chain state is returned untouched
(the source prints a singularity message, a side effect outside the state).
Early rejection leaves the state untouched.  On acceptance the candidate
replaces the current state and the window acceptance counter increments. -/
def accept_reject (cfg : Config) (s : State) (inp : StepInput) : State × ARResult :=
  if inp.perturb_raises then (s, ARResult.raised)
  else
    match inp.datapoint_prior1 with
    | none => (s, ARResult.early)
    | some dp_prior1 =>
      match inp.model_prior1 with
      | none => (s, ARResult.early)
      | some m_prior1 =>
        let prior1 := dp_prior1 + m_prior1
        let likelihood1 : ℚ := if cfg.ignore_likelihood then 1 else inp.likelihood1
        let posterior1 := prior1 + likelihood1
        if inp.accept_draw then
          ({ s with
              accepted := s.accepted + 1
              data_misfit := inp.data_misfit1
              prior := prior1
              likelihood := likelihood1
              posterior := posterior1
              model := inp.model1
              datapoint := inp.datapoint1 }, ARResult.done true)
        else (s, ARResult.done false)

/-- One pass of the body of the `while` loop in `Inference1D.infer`
(lines 548-565): `accept_reject` followed by `update`. -/
def chain_step (cfg : Config) (s : State) (inp : StepInput) :
    Except PyErr (State × ARResult) :=
  (update cfg (accept_reject cfg s inp).1).map (fun s2 => (s2, (accept_reject cfg s inp).2))

/-- A fixed number of loop-body executions, driven by an input trace; this is
"a run of `trace.length` iterations" of the sampler. -/
def chain_steps (cfg : Config) : State → List StepInput → Except PyErr State
  | s, [] => Except.ok s
  | s, inp :: rest => do
    let p ← chain_step cfg s inp
    chain_steps cfg p.1 rest

/-- The `while Go` loop of `Inference1D.infer` with its termination logic
(lines 546-565): after each body, `Go = not failed and
(iteration <= n_markov_chains + burned_in_iteration)`, and before burn-in
`Go = iteration < n_markov_chains` with `failed = True` when that bound is
hit.  Returns the final state and the `failed` flag.  An exhausted input
trace models interrupting the loop from outside. -/
def infer_loop (cfg : Config) : State → List StepInput → Except PyErr (State × Bool)
  | s, [] => Except.ok (s, false)
  | s, inp :: rest => do
    let p ← chain_step cfg s inp
    let s1 := p.1
    let failed := (p.2).failed
    let go := !failed && decide (s1.iteration ≤ cfg.n_markov_chains + s1.burned_in_iteration)
    let gf :=
      if !failed && !s1.burned_in then
        let go2 := decide (s1.iteration < cfg.n_markov_chains)
        (go2, !go2)
      else (go, failed)
    if gf.1 then infer_loop cfg s1 rest else Except.ok (s1, gf.2)

/-- Projection of an `Except` to its success value, used to state results of
fallible embedded code decidably. -/
def exOk? {ε α : Type _} : Except ε α → Option α
  | Except.ok a => some a
  | Except.error _ => none

/-- Projection of an `Except` to its error value. -/
def exErr? {ε α : Type _} : Except ε α → Option ε
  | Except.ok _ => none
  | Except.error e => some e

/-- The burn-in detector applied right after the iteration counter increment,
i.e. the prefix of `update` up to line 614. -/
def burnin_update (s : State) : State :=
  burnin_step (record_step s)

/-- The value of `_n_target_hits` after the `update` call, as the source
computes it: incremented exactly when `iteration > 10000` (post-increment)
and the misfit is `isclose` to `multiplier * target`. -/
def c1_hits (s : State) : ℕ :=
  if 10000 < s.iteration + 1 ∧
      isclose s.data_misfit (s.multiplier * target_misfit s.datapoint) = true then
    s.n_target_hits + 1
  else s.n_target_hits

/-- The burn-in condition exactly as claim C1 words it: iteration count
exceeds 10000 AND (the normalised chi-squared fit statistic is below 1 OR the
misfit has been within tolerance of the target for at least 1000 iterations,
i.e. the hit counter has reached 1000). -/
def c1_spec_burnin_condition (s : State) : Prop :=
  10000 < s.iteration + 1 ∧
    (s.relative_chi_squared_fit < 1 ∨ 1000 ≤ c1_hits s)

/-- A convenient fully-explicit chain state; fields default to an inactive
zero state and are overridden per scenario. -/
def base_state : State :=
  { iteration := 0
    burned_in := false
    burned_in_iteration := 0
    best_iteration := 0
    n_target_hits := 0
    relative_chi_squared_fit := 100
    multiplier := 1
    accepted := 0
    data_misfit := 2
    prior := 0
    likelihood := 0
    posterior := 0
    model := { values := [], posterior_count := 0 }
    datapoint := { active := [true, true], relative_error_hasPrior := true, posterior_count := 0 }
    best_model := { values := [], posterior_count := 0 }
    best_datapoint := { active := [true, true], relative_error_hasPrior := true, posterior_count := 0 }
    best_posterior := 0
    misfit_posterior_count := 0
    data_misfit_writes := []
    acceptance_writes := []
    posterior_log := []
    log_since_reset := []
    burnin_iteration_writes := [] }

/-- Sampler configuration used by the concrete burn-in scenarios. -/
def cfgA : Config :=
  { n_markov_chains := 100000
    update_plot_every := 3
    ignore_likelihood := false
    kwargs_multiplier := none }

/-- A chain about to make its 10010th update, with the misfit sitting exactly
on the target (`data_misfit = multiplier * target = 2`) and a hit counter
that reaches 1000 during the update, while the chi-squared fit statistic is
far from 1. -/
def sA : State :=
  { base_state with
    iteration := 10009
    n_target_hits := 999
    relative_chi_squared_fit := 2 }

/-- A chain about to make its 10001st update with the chi-squared fit
statistic already below 1: the next update declares burn-in. -/
def sW : State :=
  { base_state with
    iteration := 10000
    relative_chi_squared_fit := 1 / 2
    posterior := 7
    best_posterior := 7 }

/-- A step input on which `accept_reject` runs its normal path and rejects:
no perturbation failure, finite priors, acceptance test false. -/
def benign_input : StepInput :=
  { perturb_raises := false
    datapoint_prior1 := some 0
    model_prior1 := some 0
    likelihood1 := 0
    data_misfit1 := 2
    model1 := { values := [], posterior_count := 0 }
    datapoint1 := { active := [true, true], relative_error_hasPrior := true, posterior_count := 0 }
    accept_draw := false }

/-- A step input on which `self.model.perturb` raises a numerical error
(singular local covariance / Cholesky failure). -/
def raising_input : StepInput :=
  { benign_input with perturb_raises := true }

/-- One statement of the body of `Inference1D.writeHdf` (lines 909-960):
`free_names` lists, in evaluation order, the variable names the statement
reads from the function scope, and `dataset` is the HDF dataset key the
statement writes when those names resolve. -/
structure HdfStmt where
  free_names : List PyName
  dataset : PyName
deriving DecidableEq

/-- The statements of `writeHdf` in source order.  Lines 909-924 write
scalar records through `parent[...][index]`; lines 945-960 pass the file
handle and index as `hdfFile` and `i` -- names that are never bound in the
function (its parameters are `parent` and `index`). -/
def writeHdf_body : List HdfStmt :=
  [ { free_names := [PyName.parent, PyName.index, PyName.self], dataset := PyName.iteration }
  , { free_names := [PyName.parent, PyName.index, PyName.self], dataset := PyName.burned_in_iteration }
  , { free_names := [PyName.parent, PyName.index, PyName.self], dataset := PyName.best_iteration }
  , { free_names := [PyName.parent, PyName.index, PyName.self], dataset := PyName.burned_in }
  , { free_names := [PyName.parent, PyName.index, PyName.self], dataset := PyName.multiplier }
  , { free_names := [PyName.self, PyName.hdfFile, PyName.i], dataset := PyName.acceptance_rate }
  , { free_names := [PyName.self, PyName.hdfFile, PyName.i], dataset := PyName.phids }
  , { free_names := [PyName.self, PyName.hdfFile, PyName.i], dataset := PyName.data }
  , { free_names := [PyName.self, PyName.hdfFile, PyName.i], dataset := PyName.data }
  , { free_names := [PyName.self, PyName.hdfFile, PyName.i], dataset := PyName.halfspace }
  , { free_names := [PyName.self, PyName.hdfFile, PyName.i], dataset := PyName.model }
  , { free_names := [PyName.self, PyName.hdfFile, PyName.i], dataset := PyName.model } ]

/-- The names bound in the scope of `writeHdf`: its parameters `self`,
`parent`, `index`, plus `fiducials` when the `index is None` branch ran
(which also rebinds `index`). -/
def writeHdf_locals (index_given : Bool) : List PyName :=
  if index_given then [PyName.self, PyName.parent, PyName.index]
  else [PyName.self, PyName.parent, PyName.fiducials, PyName.index]

/-- Resolve a list of names against the bound scope; the first unbound name
raises `NameError`, as in Python. -/
def lookup_names (bound : List PyName) : List PyName → Option PyErr
  | [] => none
  | n :: rest => if n ∈ bound then lookup_names bound rest else some (PyErr.nameError n)

/-- Execute statements in order, accumulating the dataset keys successfully
written and stopping at the first statement whose names do not resolve. -/
def run_hdf_stmts (bound : List PyName) : List HdfStmt → List PyName → List PyName × Option PyErr
  | [], written => (written, none)
  | st :: rest, written =>
    match lookup_names bound st.free_names with
    | some e => (written, some e)
    | none => run_hdf_stmts bound rest (written ++ [st.dataset])

/-- `Inference1D.writeHdf`, as the execution of its statement list in the
scope determined by whether the caller supplied `index`. -/
def writeHdf (index_given : Bool) : List PyName × Option PyErr :=
  run_hdf_stmts (writeHdf_locals index_given) writeHdf_body []

/-- The dataset keys `Inference1D.createHdf` (lines 851-898) creates under
the parent group. -/
def createHdf_datasets : List PyName :=
  [ PyName.data, PyName.update_plot_every, PyName.interactive_plot
  , PyName.reciprocate_parameter, PyName.limits, PyName.n_markov_chains
  , PyName.nsystems, PyName.ratex, PyName.iteration, PyName.burned_in_iteration
  , PyName.best_iteration, PyName.burned_in, PyName.multiplier, PyName.invtime
  , PyName.savetime, PyName.acceptance_rate, PyName.phids, PyName.halfspace
  , PyName.model ]

/-- The dataset keys `Inference1D.fromHdf` (lines 970-1025) reads back. -/
def fromHdf_reads : List PyName :=
  [ PyName.data, PyName.multiplier, PyName.n_markov_chains, PyName.limits
  , PyName.reciprocate_parameter, PyName.update_plot_every, PyName.nsystems
  , PyName.ratex, PyName.iteration, PyName.burned_in_iteration
  , PyName.burned_in, PyName.rate, PyName.phids, PyName.model
  , PyName.halfspace, PyName.invtime, PyName.savetime ]

/-- Configuration matching the source defaults (`n_markov_chains = 100000`,
`update_plot_every = 5000`) with the (absent) `kwargs` attribute. -/
def cfgB : Config :=
  { n_markov_chains := 100000
    update_plot_every := 5000
    ignore_likelihood := false
    kwargs_multiplier := inference1d_kwargs_attribute }

/-- A chain one iteration before a window boundary, before burn-in, whose
datapoint's relative error has no prior attached. -/
def sB : State :=
  { base_state with
    iteration := 4999
    datapoint := { active := [true, true], relative_error_hasPrior := false, posterior_count := 0 } }

/-- The window-acceptance invariant behind claim C5 (window length 5000):
the acceptance counter never exceeds the position inside the current window,
one `acceptance_rate` entry has been written per completed window, and every
written value is a percentage in `[0, 100]`. -/
def C5Inv (s : State) : Prop :=
  s.accepted ≤ s.iteration % 5000 ∧
  s.acceptance_writes.length = s.iteration / 5000 ∧
  ∀ w ∈ s.acceptance_writes, 0 ≤ w.2 ∧ w.2 ≤ 100

/-- The `acceptance_rate` writes made by a benign all-rejected run of `k`
iterations starting from iteration `i`: a `0` percent entry at each window
boundary crossed, in slot `boundary / 5000 - 1`. -/
def boundaryWrites : ℕ → ℕ → List (ℕ × ℚ)
  | _, 0 => []
  | i, k + 1 =>
    (if (i + 1) % 5000 = 0 then [((i + 1) / 5000 - 1, (0 : ℚ))] else []) ++
      boundaryWrites (i + 1) k

/-- Closed form of the state reached after `k` benign (all-rejected,
already-burned-in) iterations with window length 5000. -/
def benign_form (s : State) (k : ℕ) : State :=
  { s with
    iteration := s.iteration + k
    data_misfit_writes := s.data_misfit_writes ++ List.replicate k s.data_misfit
    posterior_log := s.posterior_log ++ List.replicate k s.posterior
    log_since_reset := s.log_since_reset ++ List.replicate k s.posterior
    model := { s.model with posterior_count := s.model.posterior_count + k }
    datapoint := { s.datapoint with posterior_count := s.datapoint.posterior_count + k }
    acceptance_writes := s.acceptance_writes ++ boundaryWrites s.iteration k }

/-- A fresh already-burned-in chain (as when the likelihood is ignored). -/
def sWit : State :=
  { base_state with
    burned_in := true
    burned_in_iteration := 1
    best_posterior := 1 }

/-- The best-record invariant that actually holds: every log-posterior
recorded since the last reset of the best record (the burn-in transition, or
initialisation) is dominated by the tracked best posterior. -/
def BestDominatesSinceReset (s : State) : Prop :=
  ∀ ρ ∈ s.log_since_reset, ρ ≤ s.best_posterior

/-- Configuration for the C6 run: window so large that no boundary is hit in
11001 iterations. -/
def cfg6 : Config :=
  { n_markov_chains := 100000
    update_plot_every := 1073741824
    ignore_likelihood := false
    kwargs_multiplier := none }

/-- A proposal that is accepted with a lower posterior (prior 2 + 1, log
likelihood 2, so log posterior 5). -/
def acc5_input : StepInput :=
  { benign_input with
    datapoint_prior1 := some 2
    model_prior1 := some 1
    likelihood1 := 2
    accept_draw := true }

/-- Start of the C6 run: a fresh chain whose initial log-posterior is 10. -/
def s6 : State :=
  { base_state with
    prior := 4
    likelihood := 6
    posterior := 10
    best_posterior := 10 }

/-- The state after the first two iterations of the C6 run (one rejection at
posterior 10, then acceptance of the posterior-5 candidate). -/
def sP2 : State :=
  { base_state with
    iteration := 2
    accepted := 1
    data_misfit := 2
    prior := 3
    likelihood := 2
    posterior := 5
    best_posterior := 10
    model := { values := [], posterior_count := 1 }
    datapoint := { active := [true, true], relative_error_hasPrior := true, posterior_count := 1 }
    data_misfit_writes := [2, 2]
    posterior_log := [10, 5]
    log_since_reset := [10, 5] }

/-- Closed form of `k` all-rejected pre-burn-in iterations that hit no window
boundary and no target hit: only the bookkeeping fields advance. -/
def noburn_form (s : State) (k : ℕ) : State :=
  { s with
    iteration := s.iteration + k
    data_misfit_writes := s.data_misfit_writes ++ List.replicate k s.data_misfit
    posterior_log := s.posterior_log ++ List.replicate k s.posterior
    log_since_reset := s.log_since_reset ++ List.replicate k s.posterior
    model := { s.model with posterior_count := s.model.posterior_count + k }
    datapoint := { s.datapoint with posterior_count := s.datapoint.posterior_count + k } }

/-- Closed form when additionally every iteration is a target hit (past
iteration 10000 with the misfit within tolerance). -/
def noburn_hits_form (s : State) (k : ℕ) : State :=
  { noburn_form s k with n_target_hits := s.n_target_hits + k }

/-- The state after an iteration whose update fires the burn-in transition
(away from window boundaries): the best record is re-seeded from the current
state and all posterior accumulators reset (then the model and datapoint
accumulators receive the end-of-update increment). -/
def transition_form (s : State) : State :=
  { s with
    iteration := s.iteration + 1
    n_target_hits := s.n_target_hits + 1
    burned_in := true
    burned_in_iteration := s.iteration + 1
    best_iteration := s.iteration + 1
    best_model := s.model
    best_datapoint := s.datapoint
    best_posterior := s.posterior
    misfit_posterior_count := 0
    model := { s.model with posterior_count := 1 }
    datapoint := { s.datapoint with posterior_count := 1 }
    data_misfit_writes := s.data_misfit_writes ++ [s.data_misfit]
    posterior_log := s.posterior_log ++ [s.posterior]
    log_since_reset := [s.posterior]
    burnin_iteration_writes := s.burnin_iteration_writes ++ [s.iteration + 1] }

/-- The input trace of the C6 run: one rejection, one low-posterior
acceptance, 9998 rejections up to iteration 10000, 1000 target-hit
rejections up to iteration 11000, and the transition iteration 11001. -/
def trace6 : List StepInput :=
  [benign_input, acc5_input] ++
    (List.replicate 9998 benign_input ++
      (List.replicate 1000 benign_input ++ [benign_input]))

/-- Claim C6 exactly as stated: on the concrete run below, the final best
posterior dominates every recorded log-posterior of the chain, including
those recorded before burn-in was declared. -/
def c6_claim : Prop :=
  ∀ sF, chain_steps cfg6 s6 trace6 = Except.ok sF →
    ∀ ρ ∈ sF.posterior_log, ρ ≤ sF.best_posterior


/-- The final state of the C6 run. -/
def sF6 : State :=
  transition_form (noburn_hits_form (noburn_form sP2 9998) 1000)

/-- The write-once invariant for the burn-in iteration: before burn-in no
write has happened; after it, exactly one write, holding the recorded
burn-in iteration. -/
def BurninWriteInvariant (s : State) : Prop :=
  (s.burned_in = false ∧ s.burnin_iteration_writes = []) ∨
  (s.burned_in = true ∧ s.burnin_iteration_writes = [s.burned_in_iteration])

/-- The state after one benign iteration from a fresh not-burned-in chain
(window 5000). -/
def sC7 : State :=
  { base_state with
    iteration := 1
    data_misfit_writes := [2]
    posterior_log := [0]
    log_since_reset := [0]
    model := { values := [], posterior_count := 1 }
    datapoint := { active := [true, true], relative_error_hasPrior := true, posterior_count := 1 } }

/-- `numpy.searchsorted(a, v)` with the default `side='left'`: the first
index at which `v` could be inserted keeping `a` sorted, i.e. the first
index `i` with `v ≤ a[i]`, or `a.length` if there is none. -/
def searchsorted_left (a : List ℚ) (v : ℚ) : ℕ :=
  match a with
  | [] => 0
  | x :: rest => if v ≤ x then 0 else searchsorted_left rest v + 1

/-- `numpy.cumsum` with a running accumulator. -/
def cumsum (acc : ℚ) : List ℚ → List ℚ
  | [] => []
  | x :: rest => (acc + x) :: cumsum (acc + x) rest

/-- `Mesh._percentile` lines 162-168: cumulative sum of the counts divided by
their total where the total is positive, zero otherwise. -/
def cdf_values (counts : List ℚ) : List ℚ :=
  (cumsum 0 counts).map (fun c => if 0 < counts.sum then c / counts.sum else 0)

/-- `Mesh._percentile` lines 159-172 for a one-dimensional mesh: scale the
percent to a probability, locate it in the cumulative distribution with
`searchsorted`, and clamp an off-the-end index to the last cell. -/
def percentile_index (counts : List ℚ) (percent : ℚ) : ℕ :=
  let i := searchsorted_left (cdf_values counts) (percent * (1 / 100))
  if i = counts.length then counts.length - 1 else i

/-- `Mesh._percentile` line 177: the cell centre at the located index. -/
def percentile (centres counts : List ℚ) (percent : ℚ) : ℚ :=
  centres.getD (percentile_index counts percent) 0

/-- `Mesh._credible_intervals` lines 54-56: symmetrise the percentage with
`0.5 * min(percent, 100 - percent)` and return the median and the two
percentiles at that tail level. -/
def credible_intervals (centres counts : List ℚ) (percent : ℚ) : ℚ × ℚ × ℚ :=
  let p := (1 / 2) * min percent (100 - percent)
  (percentile centres counts 50, percentile centres counts p,
    percentile centres counts (100 - p))

/-- The credible-interval query as claim C8 words it: the percentiles at
levels `percent / 2` and `100 - percent / 2` (together with the median). -/
def credible_intervals_spec (centres counts : List ℚ) (percent : ℚ) : ℚ × ℚ × ℚ :=
  (percentile centres counts 50, percentile centres counts (percent / 2),
    percentile centres counts (100 - percent / 2))

/-- Four equally weighted cells centred at 0, 1, 2, 3. -/
def centres4 : List ℚ := [0, 1, 2, 3]

/-- Unit counts for the four cells. -/
def counts4 : List ℚ := [1, 1, 1, 1]

/-- The 120 fixed J0 digital-filter weights of `FdemSystem.w0` (lines 347-373). -/
def w0 : List ℚ :=
  [ 9.62801364263e-07, -5.02069203805e-06, 1.25268783953e-05, -1.99324417376e-05
  , 2.29149033546e-05, -2.04737583809e-05, 1.49952002937e-05, -9.37502840980e-06
  , 5.20156955323e-06, -2.62939890538e-06, 1.26550848081e-06, -5.73156151923e-07
  , 2.76281274155e-07, -1.09963734387e-07, 7.38038330280e-08, -9.31614600001e-09
  , 3.87247135578e-08, 2.10303178461e-08, 4.10556513877e-08, 4.13077946246e-08
  , 5.68828741789e-08, 6.59543638130e-08, 8.40811858728e-08, 1.01532550003e-07
  , 1.26437360082e-07, 1.54733678097e-07, 1.91218582499e-07, 2.35008851918e-07
  , 2.89750329490e-07, 3.56550504341e-07, 4.39299297826e-07, 5.40794544880e-07
  , 6.66136379541e-07, 8.20175040653e-07, 1.01015545059e-06, 1.24384500153e-06
  , 1.53187399787e-06, 1.88633707689e-06, 2.32307100992e-06, 2.86067883258e-06
  , 3.52293208580e-06, 4.33827546442e-06, 5.34253613351e-06, 6.57906223200e-06
  , 8.10198829111e-06, 9.97723263578e-06, 1.22867312381e-05, 1.51305855976e-05
  , 1.86329431672e-05, 2.29456891669e-05, 2.82570465155e-05, 3.47973610445e-05
  , 4.28521099371e-05, 5.27705217882e-05, 6.49856943660e-05, 8.00269662180e-05
  , 9.85515408752e-05, 1.21361571831e-04, 1.49454562334e-04, 1.84045784500e-04
  , 2.26649641428e-04, 2.79106748890e-04, 3.43716968725e-04, 4.23267056591e-04
  , 5.21251001943e-04, 6.41886194381e-04, 7.90483105615e-04, 9.73420647376e-04
  , 1.19877439042e-03, 1.47618560844e-03, 1.81794224454e-03, 2.23860214971e-03
  , 2.75687537633e-03, 3.39471308297e-03, 4.18062141752e-03, 5.14762977308e-03
  , 6.33918155348e-03, 7.80480111772e-03, 9.61064602702e-03, 1.18304971234e-02
  , 1.45647517743e-02, 1.79219149417e-02, 2.20527911163e-02, 2.71124775541e-02
  , 3.33214363101e-02, 4.08864842127e-02, 5.01074356716e-02, 6.12084049407e-02
  , 7.45146949048e-02, 9.00780900611e-02, 1.07940155413e-01, 1.27267746478e-01
  , 1.46676027814e-01, 1.62254276550e-01, 1.68045766353e-01, 1.52383204788e-01
  , 1.01214136498e-01, -2.44389126667e-03, -1.54078468398e-01, -3.03214415655e-01
  , -2.97674373379e-01, 7.93541259524e-03, 4.26273267393e-01, 1.00032384844e-01
  , -4.94117404043e-01, 3.92604878741e-01, -1.90111691178e-01, 7.43654896362e-02
  , -2.78508428343e-02, 1.09992061155e-02, -4.69798719697e-03, 2.12587632706e-03
  , -9.81986734159e-04, 4.44992546836e-04, -1.89983519162e-04, 7.31024164292e-05
  , -2.40057837293e-05, 6.23096824846e-06, -1.12363896552e-06, 1.04470606055e-07 ]

/-- The 140 fixed J1 digital-filter weights of `FdemSystem.w1` (lines 375-405). -/
def w1 : List ℚ :=
  [ -6.76671159511e-14, 3.39808396836e-13, -7.43411889153e-13, 8.93613024469e-13
  , -5.47341591896e-13, -5.84920181906e-14, 5.20780672883e-13, -6.92656254606e-13
  , 6.88908045074e-13, -6.39910528298e-13, 5.82098912530e-13, -4.84912700478e-13
  , 3.54684337858e-13, -2.10855291368e-13, 1.00452749275e-13, 5.58449957721e-15
  , -5.67206735175e-14, 1.09107856853e-13, -6.04067500756e-14, 8.84512134731e-14
  , 2.22321981827e-14, 8.38072239207e-14, 1.23647835900e-13, 1.44351787234e-13
  , 2.94276480713e-13, 3.39965995918e-13, 6.17024672340e-13, 8.25310217692e-13
  , 1.32560792613e-12, 1.90949961267e-12, 2.93458179767e-12, 4.33454210095e-12
  , 6.55863288798e-12, 9.78324910827e-12, 1.47126365223e-11, 2.20240108708e-11
  , 3.30577485691e-11, 4.95377381480e-11, 7.43047574433e-11, 1.11400535181e-10
  , 1.67052734516e-10, 2.50470107577e-10, 3.75597211630e-10, 5.63165204681e-10
  , 8.44458166896e-10, 1.26621795331e-09, 1.89866561359e-09, 2.84693620927e-09
  , 4.26886170263e-09, 6.40104325574e-09, 9.59798498616e-09, 1.43918931885e-08
  , 2.15798696769e-08, 3.23584600810e-08, 4.85195105813e-08, 7.27538583183e-08
  , 1.09090191748e-07, 1.63577866557e-07, 2.45275193920e-07, 3.67784458730e-07
  , 5.51470341585e-07, 8.26916206192e-07, 1.23991037294e-06, 1.85921554669e-06
  , 2.78777669034e-06, 4.18019870272e-06, 6.26794044911e-06, 9.39858833064e-06
  , 1.40925408889e-05, 2.11312291505e-05, 3.16846342900e-05, 4.75093313246e-05
  , 7.12354794719e-05, 1.06810848460e-04, 1.60146590551e-04, 2.40110903628e-04
  , 3.59981158972e-04, 5.39658308918e-04, 8.08925141201e-04, 1.21234066243e-03
  , 1.81650387595e-03, 2.72068483151e-03, 4.07274689463e-03, 6.09135552241e-03
  , 9.09940027636e-03, 1.35660714813e-02, 2.01692550906e-02, 2.98534800308e-02
  , 4.39060697220e-02, 6.39211368217e-02, 9.16763946228e-02, 1.28368795114e-01
  , 1.73241920046e-01, 2.19830379079e-01, 2.51193131178e-01, 2.32380049895e-01
  , 1.17121080205e-01, -1.17252913088e-01, -3.52148528535e-01, -2.71162871370e-01
  , 2.91134747110e-01, 3.17192840623e-01, -4.93075681595e-01, 3.11223091821e-01
  , -1.36044122543e-01, 5.12141261934e-02, -1.90806300761e-02, 7.57044398633e-03
  , -3.25432753751e-03, 1.49774676371e-03, -7.24569558272e-04, 3.62792644965e-04
  , -1.85907973641e-04, 9.67201396593e-05, -5.07744171678e-05, 2.67510121456e-05
  , -1.40667136728e-05, 7.33363699547e-06, -3.75638767050e-06, 1.86344211280e-06
  , -8.71623576811e-07, 3.61028200288e-07, -1.05847108097e-07, -1.51569361490e-08
  , 6.67633241420e-08, -8.33741579804e-08, 8.31065906136e-08, -7.53457009758e-08
  , 6.48057680299e-08, -5.37558016587e-08, 4.32436265303e-08, -3.37262648712e-08
  , 2.53558687098e-08, -1.81287021528e-08, 1.20228328586e-08, -7.10898040664e-09
  , 3.53667004588e-09, -1.36030600198e-09, 3.52544249042e-10, -4.53719284366e-11 ]

/-- Ten to a real power, as used for the lagged Hankel filter abscissae. -/
noncomputable def tenPow (x : ℝ) : ℝ := Real.rpow 10 x

/-- `FdemSystem.lamda0` (lines 70-86): for each of the `F` frequencies, with
`loopSep f` the transmitter-receiver loop separation at frequency `f`, the
120 lagged J0 abscissae `10 ^ (j * 9.04226468670e-2 + (-8.3885)) / r_f`,
computed in the source as `l0 * (1 / r_f)`. -/
noncomputable def lamda0 (F : ℕ) (loopSep : Fin F → ℝ) : Fin F → Fin 120 → ℝ :=
  fun f j => tenPow ((j : ℕ) * 9.04226468670e-2 + (-8.3885)) * (1 / loopSep f)

/-- `FdemSystem.lamda1` (lines 89-105): the 140 lagged J1 abscissae
`10 ^ (j * 8.7967143957e-2 + (-7.91001919)) / r_f`. -/
noncomputable def lamda1 (F : ℕ) (loopSep : Fin F → ℝ) : Fin F → Fin 140 → ℝ :=
  fun f j => tenPow ((j : ℕ) * 8.7967143957e-2 + (-7.91001919)) * (1 / loopSep f)

/-- An `FdemDataPoint` object: an object identity, its value-like fields,
and `_system`, a list of references (heap identities) to `FdemSystem`
objects. -/
structure FdemDataPointObj where
  obj_id : ℕ
  x : ℚ
  y : ℚ
  z : ℚ
  elevation : ℚ
  system : List ℕ
deriving DecidableEq

/-- `FdemDataPoint.__deepcopy__` (lines 77-81):
`out = super().__deepcopy__(memo)` produces a fresh object (new identity,
value fields copied; the `EmDataPoint` base lives outside `src/` and is
modelled from the spec's value-like clone semantics), and line 79 then
assigns `out._system = self._system` -- the very same reference list, not a
copy. -/
def fdemDataPoint_deepcopy (dp : FdemDataPointObj) (fresh_id : ℕ) : FdemDataPointObj :=
  { obj_id := fresh_id
    x := dp.x
    y := dp.y
    z := dp.z
    elevation := dp.elevation
    system := dp.system }

/-- The attributes resolvable on an `FdemSystem` instance: the instance
attributes written by `__init__` (lines 26-40, through the property setters)
and the class-level properties and methods.  Neither `__init__` nor any
other method assigns `fileName` (only `summary` reads a `_fileName` that is
likewise never written), and the `myObject` base (outside `src/`, modelled
from the spec's HDF-persistence boundary) defines no data attributes. -/
def fdemSystem_attributes : List PyName :=
  [ PyName.frequencies, PyName.loopOffsets, PyName.loopSeparation
  , PyName.nFrequencies, PyName.lamda0, PyName.lamda02, PyName.lamda1
  , PyName.lamda12, PyName.receiverLoops, PyName.transmitterLoops
  , PyName.deepcopy, PyName.read, PyName.fileInformation
  , PyName.getTensorID, PyName.getComponentID, PyName.summary
  , PyName.toHdf, PyName.fromHdf, PyName.Bcast, PyName.Isend, PyName.Irecv
  , PyName.w0, PyName.w1
  , PyName.underscore_frequencies, PyName.underscore_transmitterLoops
  , PyName.underscore_receiverLoops, PyName.underscore_loopOffsets
  , PyName.underscore_w0, PyName.underscore_lamda0, PyName.underscore_lamda02
  , PyName.underscore_w1, PyName.underscore_lamda1, PyName.underscore_lamda12 ]

/-- Attribute lookup on an `FdemSystem` instance. -/
def fdemSystem_getattr (n : PyName) : Except PyErr Unit :=
  if n ∈ fdemSystem_attributes then Except.ok () else Except.error (PyErr.attributeError n)

/-- `FdemSystem.__init__` (line 19) takes three parameters besides `self`. -/
def fdemSystem_init_params : ℕ := 3

/-- Calling `FdemSystem(...)` with `nargs` positional arguments: more
arguments than parameters is a `TypeError`. -/
def call_fdemSystem_init (nargs : ℕ) : Except PyErr Unit :=
  if nargs ≤ fdemSystem_init_params then Except.ok () else Except.error PyErr.typeErrorArity

/-- `FdemSystem.__deepcopy__` (lines 145-146): Python evaluates the four
attribute arguments left to right, then would call the constructor with
four positional arguments. -/
def fdemSystem_dunder_deepcopy : Except PyErr Unit := do
  let _ ← fdemSystem_getattr PyName.frequencies
  let _ ← fdemSystem_getattr PyName.transmitterLoops
  let _ ← fdemSystem_getattr PyName.receiverLoops
  let _ ← fdemSystem_getattr PyName.fileName
  call_fdemSystem_init 4

/-- The burn-in flag after a successful `update` agrees with the flag computed
by the burn-in detector prefix: the blocks after line 614 never touch it. -/
theorem update_ok_burned_in (cfg : Config) (s s2 : State)
    (h : update cfg s = Except.ok s2) :
    s2.burned_in = (burnin_step (record_step s)).burned_in := by
  unfold update at h
  set t := window_step cfg.update_plot_every (best_step (burnin_step (record_step s))) with ht
  have htb : t.burned_in = (burnin_step (record_step s)).burned_in := by
    rw [ht]; unfold window_step best_step; split_ifs <;> rfl
  unfold multiplier_step at h
  split_ifs at h with h1
  · cases hkw : cfg.kwargs_multiplier with
    | none => rw [hkw] at h; cases h
    | some m =>
        rw [hkw] at h
        simp only [Except.map] at h
        cases h
        simpa [posteriors_step] using htb
  · simp only [Except.map] at h
    cases h
    simpa [posteriors_step] using htb

/-- C1 (amended): with the chain not yet burned in, one `update` declares
burn-in exactly when the incremented iteration count exceeds 10000 and either
the normalised chi-squared fit statistic is below 1 or the target-hit counter
strictly exceeds 1000 (the source tests `self._n_target_hits > 1000`, so the
misfit must have been within tolerance of `multiplier * target` for more than
1000 iterations, not "at least 1000" as the claim says); on that transition
the burn-in iteration and best iteration are recorded as the current
iteration, the best model, best datapoint and best posterior are initialised
to the current ones, and the misfit-trace, model and datapoint posteriors are
all reset.  A successful full `update` reports the same burn-in flag as the
detector prefix. -/
theorem c1_burnin_transition (cfg : Config) (s : State) (h : s.burned_in = false) :
    ((burnin_update s).burned_in = true ↔
      10000 < s.iteration + 1 ∧
        (s.relative_chi_squared_fit < 1 ∨ 1000 < c1_hits s)) ∧
    ((burnin_update s).burned_in = true →
      (burnin_update s).burned_in_iteration = s.iteration + 1 ∧
      (burnin_update s).best_iteration = s.iteration + 1 ∧
      (burnin_update s).best_model = s.model ∧
      (burnin_update s).best_datapoint = s.datapoint ∧
      (burnin_update s).best_posterior = s.posterior ∧
      (burnin_update s).misfit_posterior_count = 0 ∧
      (burnin_update s).model.posterior_count = 0 ∧
      (burnin_update s).datapoint.posterior_count = 0 ∧
      (burnin_update s).burnin_iteration_writes
        = s.burnin_iteration_writes ++ [s.iteration + 1]) ∧
    (∀ s2, update cfg s = Except.ok s2 → s2.burned_in = (burnin_update s).burned_in) := by
  refine ⟨?_, ?_, ?_⟩
  · dsimp only [burnin_update, burnin_step, record_step, c1_hits]
    rw [h]
    simp only [Bool.false_eq_true, if_false]
    split_ifs with h1 h2 h3 <;> simp_all
    tauto
  · dsimp only [burnin_update, burnin_step, record_step, c1_hits]
    rw [h]
    simp only [Bool.false_eq_true, if_false]
    split_ifs with h1 h2 h3 <;> simp_all
  · intro s2 hs2
    exact update_ok_burned_in cfg s s2 hs2

/-- C1 (counterexample): at state `sA` the claim's burn-in condition holds --
the iteration count exceeds 10000 and the misfit has been within tolerance of
the target for (at least) the 1000th time -- yet `update` does not declare
burn-in, because the source requires the hit counter to exceed 1000 strictly.
-/
theorem c1_counterexample :
    sA.burned_in = false ∧
    c1_spec_burnin_condition sA ∧
    (burnin_update sA).burned_in = false ∧
    (exOk? (update cfgA sA)).map State.burned_in = some false := by
  norm_num [c1_spec_burnin_condition, c1_hits, burnin_update, burnin_step, record_step,
    update, multiplier_step, window_step, best_step, posteriors_step, exOk?, Except.map,
    sA, base_state, cfgA, isclose, target_misfit, decide_eq_true_eq,
    List.count_cons, List.count_nil]

/-- C1 (witness): a concrete transition for `c1_burnin_transition`: at `sW`
the detector fires and records the burn-in iteration 10001 with the best
posterior seeded from the current one. -/
theorem c1_witness :
    (burnin_update sW).burned_in = true ∧
    (burnin_update sW).burned_in_iteration = 10001 ∧
    (burnin_update sW).best_posterior = 7 := by
  have h := c1_burnin_transition cfgA sW rfl
  have hb : (burnin_update sW).burned_in = true :=
    h.1.mpr ⟨by norm_num [sW, base_state], Or.inl (by norm_num [sW, base_state])⟩
  have he := h.2.1 hb
  exact ⟨hb, he.1, by rw [he.2.2.2.2.1]; rfl⟩

/-- C2 (amended): when the model perturbation raises a numerical error,
`accept_reject` leaves the whole chain state (current model, datapoint,
prior, likelihood, posterior and everything else) unchanged and returns
`True` for `failed`; the `infer` loop then runs that iteration's `update` on
the unchanged state and terminates immediately with `failed = True`,
regardless of how many iterations of randomness remain.  The inversion does
not continue past the error (the source also prints a singularity message,
a side effect outside the state). -/
theorem c2_perturb_failure (cfg : Config) (s : State) (inp : StepInput)
    (rest : List StepInput) (h : inp.perturb_raises = true) :
    accept_reject cfg s inp = (s, ARResult.raised) ∧
    infer_loop cfg s (inp :: rest) = (update cfg s).map (fun s2 => (s2, true)) := by
  constructor
  · simp [accept_reject, h]
  · cases hu : update cfg s with
    | error e => simp [infer_loop, chain_step, accept_reject, h, hu, Except.map, Except.bind, Bind.bind]
    | ok s2 => simp [infer_loop, chain_step, accept_reject, h, hu, Except.map, Except.bind, Bind.bind, ARResult.failed]

/-- C2 (counterexample): a run given two iterations of randomness whose first
iteration hits a perturbation failure stops after that first iteration with
`failed = True` (final iteration counter 1, second input never consumed),
refuting the claim that the sampler continues to the next iteration and that
the inversion does not terminate because of such an error. -/
theorem c2_counterexample :
    (exOk? (infer_loop cfgA base_state [raising_input, benign_input])).map
      (fun p => (p.1.iteration, p.2)) = some (1, true) := by
  norm_num [infer_loop, chain_step, accept_reject, update, multiplier_step,
    window_step, best_step, burnin_step, record_step, posteriors_step,
    raising_input, benign_input, base_state, cfgA, exOk?, Except.map,
    Except.bind, Bind.bind, ARResult.failed, isclose, target_misfit,
    decide_eq_true_eq]

/-- C2 (witness): `c2_perturb_failure` instantiated at a concrete failing
perturbation. -/
theorem c2_witness :
    accept_reject cfgA base_state raising_input = (base_state, ARResult.raised) ∧
    infer_loop cfgA base_state [raising_input]
      = (update cfgA base_state).map (fun s2 => (s2, true)) :=
  c2_perturb_failure cfgA base_state raising_input [] rfl

/-- C3: the write/read round trip can never succeed, in two independent ways.
Whether or not the caller supplies `index`, `writeHdf` writes only the five
scalar records and then raises `NameError` on `hdfFile` (the body refers to
`hdfFile` and `i` where its parameters are named `parent` and `index`), so
the acceptance-rate series, misfit trace, datapoint, best records, halfspace
and model are never written.  Independently, `fromHdf` reads the dataset key
`rate`, which neither `createHdf` creates nor `writeHdf` ever writes. -/
theorem c3_roundtrip_impossible :
    (∀ b : Bool,
      writeHdf b =
        ([ PyName.iteration, PyName.burned_in_iteration, PyName.best_iteration
         , PyName.burned_in, PyName.multiplier ],
          some (PyErr.nameError PyName.hdfFile))) ∧
    PyName.rate ∈ fromHdf_reads ∧
    PyName.rate ∉ createHdf_datasets ∧
    (∀ b : Bool, PyName.rate ∉ (writeHdf b).1) := by
  decide

/-- The burn-in detector never changes the multiplier. -/
theorem burnin_step_multiplier (s : State) : (burnin_step s).multiplier = s.multiplier := by
  unfold burnin_step
  dsimp only
  split_ifs <;> rfl

/-- The best-record block never changes the multiplier. -/
theorem best_step_multiplier (s : State) : (best_step s).multiplier = s.multiplier := by
  unfold best_step
  split_ifs <;> rfl

/-- The acceptance-rate block never changes the multiplier. -/
theorem window_step_multiplier (w : ℕ) (s : State) :
    (window_step w s).multiplier = s.multiplier := by
  unfold window_step
  split_ifs <;> rfl

/-- Fields of the state after the burn-in detector when no transition can
fire (fit statistic at least 1 and hit counter staying at or below 1000). -/
theorem burnin_update_no_transition (s : State) (h : s.burned_in = false)
    (hfit : 1 ≤ s.relative_chi_squared_fit) (hhits : c1_hits s ≤ 1000) :
    (burnin_update s).burned_in = false ∧
    (burnin_update s).iteration = s.iteration + 1 ∧
    (burnin_update s).datapoint.relative_error_hasPrior
      = s.datapoint.relative_error_hasPrior := by
  dsimp only [burnin_update, burnin_step, record_step, c1_hits] at *
  rw [h]
  simp only [Bool.false_eq_true, if_false]
  split_ifs with h1 h2 h3 <;> simp_all
  all_goals casesm* _ ∨ _
  all_goals first | omega | linarith

/-- The best-record block touches only the best fields. -/
theorem best_step_fields (s : State) :
    (best_step s).burned_in = s.burned_in ∧
    (best_step s).iteration = s.iteration ∧
    (best_step s).datapoint = s.datapoint := by
  unfold best_step
  split_ifs <;> exact ⟨rfl, rfl, rfl⟩

/-- The acceptance-rate block touches only the counter and the write log. -/
theorem window_step_fields (w : ℕ) (s : State) :
    (window_step w s).burned_in = s.burned_in ∧
    (window_step w s).iteration = s.iteration ∧
    (window_step w s).datapoint = s.datapoint := by
  unfold window_step
  split_ifs <;> exact ⟨rfl, rfl, rfl⟩

/-- C4: at every window boundary before burn-in at which the relative error
has no prior attached, `update` does not multiply the target-misfit
multiplier: it raises `AttributeError`, because it reads
`self.kwargs['multiplier']` and no method of the class ever assigns
`self.kwargs`.  In every situation in which `update` completes, the
multiplier is unchanged. -/
theorem c4_multiplier_attribute_error :
    (∀ (cfg : Config) (s : State),
      cfg.kwargs_multiplier = inference1d_kwargs_attribute →
      s.burned_in = false →
      s.datapoint.relative_error_hasPrior = false →
      (s.iteration + 1) % cfg.update_plot_every = 0 →
      1 ≤ s.relative_chi_squared_fit →
      c1_hits s ≤ 1000 →
      update cfg s = Except.error (PyErr.attributeError PyName.kwargs)) ∧
    (∀ (cfg : Config) (s s2 : State),
      cfg.kwargs_multiplier = inference1d_kwargs_attribute →
      update cfg s = Except.ok s2 → s2.multiplier = s.multiplier) := by
  constructor
  · intro cfg s hk hb hp hw hfit hhits
    obtain ⟨b1, b2, b3⟩ := burnin_update_no_transition s hb hfit hhits
    have hmid := best_step_fields (burnin_update s)
    have hwin := window_step_fields cfg.update_plot_every (best_step (burnin_update s))
    unfold update multiplier_step
    rw [show burnin_step (record_step s) = burnin_update s from rfl]
    rw [if_pos, hk]
    · rfl
    · refine ⟨?_, ?_, ?_⟩
      · rw [hwin.2.1, hmid.2.1, b2]; exact hw
      · rw [hwin.1, hmid.1, b1]
      · rw [hwin.2.2, hmid.2.2, b3]; exact hp
  · intro cfg s s2 hk h
    unfold update multiplier_step at h
    split_ifs at h with h1
    · rw [hk] at h
      cases h
    · simp only [Except.map] at h
      cases h
      show (posteriors_step _).multiplier = s.multiplier
      unfold posteriors_step
      dsimp only
      rw [window_step_multiplier, best_step_multiplier, burnin_step_multiplier]
      rfl

/-- C4 (witness): a concrete window boundary -- iteration 5000 with window
5000, not burned in, no relative-error prior -- at which `update` raises
`AttributeError` instead of multiplying the multiplier. -/
theorem c4_witness :
    update cfgB sB = Except.error (PyErr.attributeError PyName.kwargs) := by
  refine c4_multiplier_attribute_error.1 cfgB sB rfl rfl rfl (by norm_num [sB, base_state, cfgB])
    (by norm_num [sB, base_state]) ?_
  norm_num [c1_hits, sB, base_state]

/-- `accept_reject` never changes the iteration counter or the
acceptance-rate write log, and increments the acceptance counter at most
once. -/
theorem accept_reject_window_fields (cfg : Config) (s : State) (inp : StepInput) :
    (accept_reject cfg s inp).1.iteration = s.iteration ∧
    (accept_reject cfg s inp).1.acceptance_writes = s.acceptance_writes ∧
    ((accept_reject cfg s inp).1.accepted = s.accepted ∨
      (accept_reject cfg s inp).1.accepted = s.accepted + 1) := by
  obtain ⟨pr, dp1, mp1, l1, dm1, m1, d1, ad⟩ := inp
  unfold accept_reject
  dsimp only
  cases pr <;> cases dp1 <;> cases mp1 <;> cases ad <;> simp

/-- The detector, best-record and posterior blocks leave the iteration,
acceptance counter and acceptance-rate write log untouched. -/
theorem mid_window_fields (s : State) :
    (best_step (burnin_step (record_step s))).iteration = s.iteration + 1 ∧
    (best_step (burnin_step (record_step s))).accepted = s.accepted ∧
    (best_step (burnin_step (record_step s))).acceptance_writes = s.acceptance_writes := by
  unfold best_step burnin_step record_step
  dsimp only
  split_ifs <;> exact ⟨rfl, rfl, rfl⟩

/-- How one successful `update` transforms the acceptance bookkeeping:
the iteration counter increments; away from window boundaries the counter
and write log are untouched, and at a window boundary the percentage
`100 * accepted / W` is appended at slot `iteration / W - 1` and the counter
resets. -/
theorem update_ok_acceptance (cfg : Config) (s s2 : State)
    (h : update cfg s = Except.ok s2) :
    s2.iteration = s.iteration + 1 ∧
    (((s.iteration + 1) % cfg.update_plot_every ≠ 0 ∧
        s2.accepted = s.accepted ∧
        s2.acceptance_writes = s.acceptance_writes) ∨
      ((s.iteration + 1) % cfg.update_plot_every = 0 ∧
        s2.accepted = 0 ∧
        s2.acceptance_writes = s.acceptance_writes ++
          [((s.iteration + 1) / cfg.update_plot_every - 1,
            100 * (s.accepted : ℚ) / (cfg.update_plot_every : ℚ))])) := by
  obtain ⟨hmi, hma, hmw⟩ := mid_window_fields s
  unfold update multiplier_step at h
  set t := window_step cfg.update_plot_every (best_step (burnin_step (record_step s))) with ht
  by_cases hbd : (s.iteration + 1) % cfg.update_plot_every = 0
  · have htw : t = { best_step (burnin_step (record_step s)) with
        acceptance_writes := (best_step (burnin_step (record_step s))).acceptance_writes ++
          [((best_step (burnin_step (record_step s))).iteration / cfg.update_plot_every - 1,
            100 * ((best_step (burnin_step (record_step s))).accepted : ℚ)
              / (cfg.update_plot_every : ℚ))]
        accepted := 0 } := by
      rw [ht]
      unfold window_step
      rw [if_pos ⟨by omega, by rw [hmi]; exact hbd⟩]
    have hti : t.iteration = s.iteration + 1 := by rw [htw]; exact hmi
    have hta : t.accepted = 0 := by rw [htw]
    have htl : t.acceptance_writes = s.acceptance_writes ++
        [((s.iteration + 1) / cfg.update_plot_every - 1,
          100 * (s.accepted : ℚ) / (cfg.update_plot_every : ℚ))] := by
      rw [htw]
      dsimp only
      rw [hmi, hma, hmw]
    split_ifs at h with h1
    · cases hkw : cfg.kwargs_multiplier with
      | none => rw [hkw] at h; cases h
      | some m =>
          rw [hkw] at h
          simp only [Except.map] at h
          cases h
          refine ⟨by simpa [posteriors_step] using hti, Or.inr ⟨hbd, ?_, ?_⟩⟩
          · simpa [posteriors_step] using hta
          · simpa [posteriors_step] using htl
    · simp only [Except.map] at h
      cases h
      refine ⟨by simpa [posteriors_step] using hti, Or.inr ⟨hbd, ?_, ?_⟩⟩
      · simpa [posteriors_step] using hta
      · simpa [posteriors_step] using htl
  · have htw : t = best_step (burnin_step (record_step s)) := by
      rw [ht]
      unfold window_step
      rw [if_neg]
      rw [hmi]
      exact fun hc => hbd hc.2
    have hti : t.iteration = s.iteration + 1 := by rw [htw]; exact hmi
    have hta : t.accepted = s.accepted := by rw [htw]; exact hma
    have htl : t.acceptance_writes = s.acceptance_writes := by rw [htw]; exact hmw
    split_ifs at h with h1
    · cases hkw : cfg.kwargs_multiplier with
      | none => rw [hkw] at h; cases h
      | some m =>
          rw [hkw] at h
          simp only [Except.map] at h
          cases h
          refine ⟨by simpa [posteriors_step] using hti, Or.inl ⟨hbd, ?_, ?_⟩⟩
          · simpa [posteriors_step] using hta
          · simpa [posteriors_step] using htl
    · simp only [Except.map] at h
      cases h
      refine ⟨by simpa [posteriors_step] using hti, Or.inl ⟨hbd, ?_, ?_⟩⟩
      · simpa [posteriors_step] using hta
      · simpa [posteriors_step] using htl

/-- Inversion for a non-empty successful run. -/
theorem chain_steps_cons_ok (cfg : Config) (s sF : State) (inp : StepInput)
    (rest : List StepInput)
    (h : chain_steps cfg s (inp :: rest) = Except.ok sF) :
    ∃ p, chain_step cfg s inp = Except.ok p ∧ chain_steps cfg p.1 rest = Except.ok sF := by
  unfold chain_steps at h
  cases hc : chain_step cfg s inp with
  | error e => rw [hc] at h; cases h
  | ok p =>
      rw [hc] at h
      exact ⟨p, rfl, h⟩

/-- One successful loop body preserves the window-acceptance invariant and
advances the iteration counter by one. -/
theorem chain_step_c5inv (cfg : Config) (hW : cfg.update_plot_every = 5000)
    (s : State) (inp : StepInput) (p : State × ARResult)
    (h : chain_step cfg s inp = Except.ok p) (hinv : C5Inv s) :
    C5Inv p.1 ∧ p.1.iteration = s.iteration + 1 := by
  obtain ⟨hai, haw, hacc⟩ := accept_reject_window_fields cfg s inp
  unfold chain_step at h
  cases hu : update cfg (accept_reject cfg s inp).1 with
  | error e => rw [hu] at h; cases h
  | ok s2 =>
      rw [hu] at h
      simp only [Except.map] at h
      cases h
      obtain ⟨h2i, h2w⟩ := update_ok_acceptance cfg (accept_reject cfg s inp).1 s2 hu
      rw [hW] at h2w
      rw [hai] at h2i h2w
      obtain ⟨i1, i2, i3⟩ := hinv
      have haccle : (accept_reject cfg s inp).1.accepted ≤ s.accepted + 1 := by
        rcases hacc with h' | h' <;> omega
      refine ⟨⟨?_, ?_, ?_⟩, h2i⟩
      · rcases h2w with ⟨hne, he, _⟩ | ⟨heq, he, _⟩
        · rw [he, h2i]
          have : (s.iteration + 1) % 5000 = s.iteration % 5000 + 1 := by omega
          omega
        · rw [he, h2i]
          omega
      · rcases h2w with ⟨hne, _, hl⟩ | ⟨heq, _, hl⟩
        · rw [hl, haw, h2i, i2]
          omega
        · rw [hl, haw, h2i]
          simp only [List.length_append, List.length_singleton, i2]
          omega
      · rcases h2w with ⟨hne, _, hl⟩ | ⟨heq, _, hl⟩
        · rw [hl, haw]
          exact i3
        · rw [hl, haw]
          intro w hw
          rcases List.mem_append.1 hw with hw | hw
          · exact i3 w hw
          · have hwv : w.2 = 100 * ((accept_reject cfg s inp).1.accepted : ℚ) / (5000 : ℚ) := by
              rcases List.mem_singleton.1 hw with rfl
              rfl
            have hA : (accept_reject cfg s inp).1.accepted ≤ 5000 := by
              have := Nat.mod_lt s.iteration (show 0 < 5000 by norm_num)
              omega
            constructor
            · rw [hwv]
              positivity
            · rw [hwv]
              rw [div_le_iff (by norm_num : (0 : ℚ) < 5000)]
              have : ((accept_reject cfg s inp).1.accepted : ℚ) ≤ 5000 := by
                exact_mod_cast hA
              linarith

/-- The window-acceptance invariant is preserved along any successful run,
and the iteration counter counts the executed loop bodies. -/
theorem chain_steps_c5inv (cfg : Config) (hW : cfg.update_plot_every = 5000) :
    ∀ (trace : List StepInput) (s sF : State),
      chain_steps cfg s trace = Except.ok sF → C5Inv s →
      C5Inv sF ∧ sF.iteration = s.iteration + trace.length := by
  intro trace
  induction trace with
  | nil =>
      intro s sF h hinv
      cases h
      exact ⟨hinv, rfl⟩
  | cons inp rest ih =>
      intro s sF h hinv
      obtain ⟨p, hp, hrest⟩ := chain_steps_cons_ok cfg s sF inp rest h
      obtain ⟨hinv1, hit1⟩ := chain_step_c5inv cfg hW s inp p hp hinv
      obtain ⟨hinvF, hitF⟩ := ih p.1 sF hrest hinv1
      refine ⟨hinvF, ?_⟩
      rw [hitF, hit1, List.length_cons]
      omega

/-- C5: on a run of 100000 iterations with `update_plot_every = 5000`,
starting from a freshly initialised chain (iteration 0, acceptance counter 0,
no acceptance-rate entries), the sampler records exactly 20 window acceptance
rates, each of the form `100 * accepted / 5000` and lying in `[0, 100]`. -/
theorem c5_acceptance_rate (cfg : Config) (trace : List StepInput) (s0 sF : State)
    (hW : cfg.update_plot_every = 5000)
    (hlen : trace.length = 100000)
    (hit : s0.iteration = 0) (hacc : s0.accepted = 0)
    (hwr : s0.acceptance_writes = [])
    (hrun : chain_steps cfg s0 trace = Except.ok sF) :
    sF.acceptance_writes.length = 20 ∧
    ∀ w ∈ sF.acceptance_writes, 0 ≤ w.2 ∧ w.2 ≤ 100 := by
  have hinv0 : C5Inv s0 := by
    refine ⟨?_, ?_, ?_⟩
    · rw [hacc]; omega
    · rw [hwr, hit]
      rfl
    · rw [hwr]; intro w hw; cases hw
  obtain ⟨⟨_, hlenF, hvals⟩, hitF⟩ := chain_steps_c5inv cfg hW trace s0 sF hrun hinv0
  refine ⟨?_, hvals⟩
  rw [hlenF, hitF, hit, hlen]

/-- One benign (all-rejected) iteration of an already-burned-in chain is the
`k = 1` instance of the closed form. -/
theorem benign_step (cfg : Config) (hW : cfg.update_plot_every = 5000) (s : State)
    (hb : s.burned_in = true) (hacc : s.accepted = 0)
    (hpb : s.posterior ≤ s.best_posterior) :
    chain_step cfg s benign_input = Except.ok (benign_form s 1, ARResult.done false) := by
  have har : accept_reject cfg s benign_input = (s, ARResult.done false) := rfl
  unfold chain_step
  rw [har]
  have hbu : burnin_step (record_step s) = record_step s := by
    unfold burnin_step
    rw [if_pos]
    show (record_step s).burned_in = true
    exact hb
  have hbe : best_step (record_step s) = record_step s := by
    unfold best_step
    rw [if_neg]
    show ¬ (record_step s).best_posterior < (record_step s).posterior
    exact not_lt.2 hpb
  unfold update
  rw [hbu, hbe, hW]
  unfold multiplier_step
  rw [if_neg]
  · simp only [Except.map]
    unfold window_step
    by_cases hbd : (s.iteration + 1) % 5000 = 0
    · rw [if_pos]
      · unfold posteriors_step record_step benign_form boundaryWrites boundaryWrites
        rw [if_pos hbd]
        simp [hacc, hbd]
      · exact ⟨by show 0 < s.iteration + 1; omega, by show (s.iteration + 1) % 5000 = 0; exact hbd⟩
    · rw [if_neg]
      · unfold posteriors_step record_step benign_form boundaryWrites boundaryWrites
        rw [if_neg hbd]
        simp [hacc]
      · intro hc
        exact hbd hc.2
  · intro hc
    rw [show (window_step 5000 (record_step s)).burned_in = s.burned_in by
      unfold window_step record_step; split_ifs <;> rfl] at hc
    rw [hb] at hc
    cases hc.2.1

/-- A benign all-rejected run of an already-burned-in chain reaches the
closed-form state: `k` more iterations, one posterior-accumulator update per
iteration, and a zero acceptance entry at each window boundary crossed. -/
theorem benign_burned_run (cfg : Config) (hW : cfg.update_plot_every = 5000) :
    ∀ (k : ℕ) (s : State), s.burned_in = true → s.accepted = 0 →
      s.posterior ≤ s.best_posterior →
      chain_steps cfg s (List.replicate k benign_input) = Except.ok (benign_form s k) := by
  intro k
  induction k with
  | zero =>
      intro s _ _ _
      show chain_steps cfg s [] = _
      unfold chain_steps
      cases s
      simp [benign_form, boundaryWrites]
  | succ k ih =>
      intro s hb hacc hpb
      rw [List.replicate_succ]
      unfold chain_steps
      rw [benign_step cfg hW s hb hacc hpb]
      show chain_steps cfg (benign_form s 1) (List.replicate k benign_input) = _
      have h1b : (benign_form s 1).burned_in = s.burned_in := rfl
      have h1a : (benign_form s 1).accepted = s.accepted := rfl
      rw [ih (benign_form s 1) (by rw [h1b]; exact hb) (by rw [h1a]; exact hacc)
        (by show s.posterior ≤ s.best_posterior; exact hpb)]
      show Except.ok (benign_form (benign_form s 1) k) = Except.ok (benign_form s (k + 1))
      have : benign_form (benign_form s 1) k = benign_form s (k + 1) := by
        unfold benign_form
        dsimp only
        rw [show boundaryWrites s.iteration (k + 1)
            = (if (s.iteration + 1) % 5000 = 0
                then [((s.iteration + 1) / 5000 - 1, (0 : ℚ))] else []) ++
              boundaryWrites (s.iteration + 1) k from rfl]
        simp [List.replicate_succ, List.append_assoc, boundaryWrites]
        constructor
        · omega
        constructor
        · omega
        · omega
      rw [this]

/-- C5 (witness): `c5_acceptance_rate` applied to the concrete benign run of
100000 all-rejected iterations of the already-burned-in chain `sWit` with
window 5000: exactly 20 acceptance-rate entries are recorded. -/
theorem c5_witness :
    (benign_form sWit 100000).acceptance_writes.length = 20 := by
  have hrun : chain_steps cfgB sWit (List.replicate 100000 benign_input)
      = Except.ok (benign_form sWit 100000) :=
    benign_burned_run cfgB rfl 100000 sWit rfl rfl (by norm_num [sWit, base_state])
  exact (c5_acceptance_rate cfgB (List.replicate 100000 benign_input) sWit
    (benign_form sWit 100000) rfl (by rw [List.length_replicate]) rfl rfl rfl hrun).1

/-- Below iteration 10000 the burn-in detector is inert. -/
theorem burnin_step_low (s : State) (hit : s.iteration ≤ 10000) : burnin_step s = s := by
  unfold burnin_step
  dsimp only
  split_ifs with h1 h2 h3 h4 <;>
    first
      | rfl
      | (exfalso; simp_all; omega)

/-- Past iteration 10000, a within-tolerance iteration increments the hit
counter, and nothing else happens while the fit statistic stays at or above
1 and the counter stays at or below 1000. -/
theorem burnin_step_hits (s : State) (hb : s.burned_in = false)
    (h10 : 10000 < s.iteration)
    (hclose : isclose s.data_misfit (s.multiplier * target_misfit s.datapoint) = true)
    (hfit : 1 ≤ s.relative_chi_squared_fit) (hhits : s.n_target_hits + 1 ≤ 1000) :
    burnin_step s = { s with n_target_hits := s.n_target_hits + 1 } := by
  unfold burnin_step
  dsimp only
  split_ifs with h1 h2 h3 h4
  · exact absurd h1 (by simp [hb])
  · exfalso
    rcases h3 with ⟨_, hlt⟩ | ⟨_, hlt⟩
    · have hlt' : s.relative_chi_squared_fit < 1 := hlt
      linarith
    · have hlt' : 1000 < s.n_target_hits + 1 := hlt
      omega
  · rfl
  · exact absurd ⟨h10, hclose⟩ h2
  · exact absurd ⟨h10, hclose⟩ h2

/-- Past iteration 10000, the 1001st within-tolerance iteration fires the
burn-in transition. -/
theorem burnin_step_fire (s : State) (hb : s.burned_in = false)
    (h10 : 10000 < s.iteration)
    (hclose : isclose s.data_misfit (s.multiplier * target_misfit s.datapoint) = true)
    (hhits : s.n_target_hits = 1000) :
    burnin_step s =
      { s with
        n_target_hits := s.n_target_hits + 1
        burned_in := true
        burned_in_iteration := s.iteration
        best_iteration := s.iteration
        best_model := s.model
        best_datapoint := s.datapoint
        best_posterior := s.posterior
        misfit_posterior_count := 0
        model := { s.model with posterior_count := 0 }
        datapoint := { s.datapoint with posterior_count := 0 }
        log_since_reset := [s.posterior]
        burnin_iteration_writes := s.burnin_iteration_writes ++ [s.iteration] } := by
  unfold burnin_step
  dsimp only
  split_ifs with h1 h2 h3 h4
  · exact absurd h1 (by simp [hb])
  · rfl
  · exfalso
    refine h3 (Or.inr ⟨?_, ?_⟩)
    · show 10000 < s.iteration
      exact h10
    · show 1000 < s.n_target_hits + 1
      omega
  · exact absurd ⟨h10, hclose⟩ h2
  · exact absurd ⟨h10, hclose⟩ h2

/-- Away from window boundaries, a benign iteration is `accept_reject`'s
rejection followed by the detector result `b` and the end-of-update
posterior increments. -/
theorem chain_step_noboundary (cfg : Config) (s b : State)
    (hb : burnin_step (record_step s) = b)
    (hbest : ¬ b.best_posterior < b.posterior)
    (hmod : b.iteration % cfg.update_plot_every ≠ 0) :
    chain_step cfg s benign_input = Except.ok (posteriors_step b, ARResult.done false) := by
  have har : accept_reject cfg s benign_input = (s, ARResult.done false) := rfl
  unfold chain_step
  rw [har]
  unfold update
  rw [hb]
  unfold best_step
  rw [if_neg hbest]
  unfold window_step
  rw [if_neg (fun hc => hmod hc.2)]
  unfold multiplier_step
  rw [if_neg (fun hc => hmod hc.1)]
  rfl

/-- Runs compose over concatenated input traces. -/
theorem chain_steps_append (cfg : Config) :
    ∀ (t1 t2 : List StepInput) (s : State),
      chain_steps cfg s (t1 ++ t2)
        = (chain_steps cfg s t1).bind fun s1 => chain_steps cfg s1 t2 := by
  intro t1
  induction t1 with
  | nil =>
      intro t2 s
      rfl
  | cons inp rest ih =>
      intro t2 s
      have hL : chain_steps cfg s ((inp :: rest) ++ t2) = (do
          let p ← chain_step cfg s inp
          chain_steps cfg p.1 (rest ++ t2)) := rfl
      have hR : chain_steps cfg s (inp :: rest) = (do
          let p ← chain_step cfg s inp
          chain_steps cfg p.1 rest) := rfl
      rw [hL, hR]
      cases hc : chain_step cfg s inp with
      | error e => rfl
      | ok p =>
          show chain_steps cfg p.1 (rest ++ t2)
            = (chain_steps cfg p.1 rest).bind fun s1 => chain_steps cfg s1 t2
          exact ih t2 p.1

/-- Phase A of the C6 run: all-rejected pre-burn-in iterations up to
iteration 10000 only advance the bookkeeping. -/
theorem noburn_low_run :
    ∀ (k : ℕ) (s : State), s.burned_in = false →
      s.posterior ≤ s.best_posterior → s.iteration + k ≤ 10000 →
      chain_steps cfg6 s (List.replicate k benign_input) = Except.ok (noburn_form s k) := by
  intro k
  induction k with
  | zero =>
      intro s _ _ _
      show Except.ok s = _
      cases s
      simp [noburn_form]
  | succ k ih =>
      intro s hb hpb hit
      rw [List.replicate_succ]
      have hbu : burnin_step (record_step s) = record_step s :=
        burnin_step_low (record_step s) (by show s.iteration + 1 ≤ 10000; omega)
      have hstep := chain_step_noboundary cfg6 s (record_step s) hbu
        (by show ¬ s.best_posterior < s.posterior; exact not_lt.2 hpb)
        (by show (s.iteration + 1) % 1073741824 ≠ 0
            rw [Nat.mod_eq_of_lt (by omega)]
            omega)
      have hL : chain_steps cfg6 s (benign_input :: List.replicate k benign_input) = (do
          let p ← chain_step cfg6 s benign_input
          chain_steps cfg6 p.1 (List.replicate k benign_input)) := rfl
      rw [hL, hstep]
      show chain_steps cfg6 (posteriors_step (record_step s)) (List.replicate k benign_input) = _
      have h1 : posteriors_step (record_step s) = noburn_form s 1 := rfl
      rw [h1, ih (noburn_form s 1) hb hpb (by show s.iteration + 1 + k ≤ 10000; omega)]
      have : noburn_form (noburn_form s 1) k = noburn_form s (k + 1) := by
        unfold noburn_form
        dsimp only
        simp [List.replicate_succ, List.append_assoc]
        omega
      rw [this]

/-- Phase B of the C6 run: past iteration 10000, all-rejected
within-tolerance iterations accumulate target hits one per iteration while
the counter stays at or below 1000. -/
theorem noburn_hits_run :
    ∀ (k : ℕ) (s : State), s.burned_in = false →
      s.posterior ≤ s.best_posterior →
      10000 ≤ s.iteration → s.iteration + k ≤ 20000 →
      s.n_target_hits + k ≤ 1000 →
      1 ≤ s.relative_chi_squared_fit →
      isclose s.data_misfit (s.multiplier * target_misfit s.datapoint) = true →
      chain_steps cfg6 s (List.replicate k benign_input)
        = Except.ok (noburn_hits_form s k) := by
  intro k
  induction k with
  | zero =>
      intro s _ _ _ _ _ _ _
      show Except.ok s = _
      cases s
      simp [noburn_hits_form, noburn_form]
  | succ k ih =>
      intro s hb hpb h10 h20 hhits hfit hclose
      rw [List.replicate_succ]
      have hbu : burnin_step (record_step s)
          = { record_step s with n_target_hits := (record_step s).n_target_hits + 1 } :=
        burnin_step_hits (record_step s) hb
          (by show 10000 < s.iteration + 1; omega) hclose hfit
          (by show s.n_target_hits + 1 ≤ 1000; omega)
      have hstep := chain_step_noboundary cfg6 s
        { record_step s with n_target_hits := (record_step s).n_target_hits + 1 } hbu
        (by show ¬ s.best_posterior < s.posterior; exact not_lt.2 hpb)
        (by show (s.iteration + 1) % 1073741824 ≠ 0
            rw [Nat.mod_eq_of_lt (by omega)]
            omega)
      have hL : chain_steps cfg6 s (benign_input :: List.replicate k benign_input) = (do
          let p ← chain_step cfg6 s benign_input
          chain_steps cfg6 p.1 (List.replicate k benign_input)) := rfl
      rw [hL, hstep]
      show chain_steps cfg6
        (posteriors_step { record_step s with n_target_hits := (record_step s).n_target_hits + 1 })
        (List.replicate k benign_input) = _
      have h1 : posteriors_step
          { record_step s with n_target_hits := (record_step s).n_target_hits + 1 }
          = noburn_hits_form s 1 := rfl
      rw [h1, ih (noburn_hits_form s 1) hb hpb
        (by show 10000 ≤ s.iteration + 1; omega)
        (by show s.iteration + 1 + k ≤ 20000; omega)
        (by show s.n_target_hits + 1 + k ≤ 1000; omega)
        hfit hclose]
      have : noburn_hits_form (noburn_hits_form s 1) k = noburn_hits_form s (k + 1) := by
        unfold noburn_hits_form noburn_form
        dsimp only
        simp [List.replicate_succ, List.append_assoc]
        omega
      rw [this]

/-- The final iteration of the C6 run: the 1001st target hit fires the
transition and re-seeds the best record from the current (lower) posterior.
-/
theorem transition_run (s : State) (hb : s.burned_in = false)
    (h10 : 10000 ≤ s.iteration) (h20 : s.iteration ≤ 20000)
    (hhits : s.n_target_hits = 1000)
    (hclose : isclose s.data_misfit (s.multiplier * target_misfit s.datapoint) = true) :
    chain_steps cfg6 s [benign_input] = Except.ok (transition_form s) := by
  have hbu := burnin_step_fire (record_step s) hb
    (by show 10000 < s.iteration + 1; omega) hclose hhits
  have hstep := chain_step_noboundary cfg6 s _ hbu
    (by show ¬ s.posterior < s.posterior; exact lt_irrefl _)
    (by show (s.iteration + 1) % 1073741824 ≠ 0
        rw [Nat.mod_eq_of_lt (by omega)]
        omega)
  have hL : chain_steps cfg6 s [benign_input] = (do
      let p ← chain_step cfg6 s benign_input
      chain_steps cfg6 p.1 []) := rfl
  rw [hL, hstep]
  rfl

/-- The misfit value 2 with multiplier 1 is within `isclose` tolerance of the
two-active-channel target. -/
theorem isclose_two (dp : Datapoint) (h : dp.active = [true, true]) :
    isclose 2 (1 * target_misfit dp) = true := by
  rw [isclose, decide_eq_true_eq, target_misfit, h]
  have hc : ([true, true].count true : ℕ) = 2 := rfl
  rw [hc]
  norm_num

/-- The first two iterations of the C6 run: a rejection at posterior 10,
then acceptance of the posterior-5 candidate. -/
theorem c6_first_two :
    chain_steps cfg6 s6 [benign_input, acc5_input] = Except.ok sP2 := by
  norm_num [chain_steps, chain_step, accept_reject, update, multiplier_step,
    window_step, best_step, burnin_step, record_step, posteriors_step,
    benign_input, acc5_input, s6, sP2, base_state, cfg6, Except.map,
    Except.bind, Bind.bind, isclose, target_misfit, decide_eq_true_eq]


/-- Bind on a successful `Except` computes. -/
theorem exBind_ok {e a b : Type} (x : a) (f : a → Except e b) :
    (Except.ok x).bind f = f x := rfl

/-- Full evaluation of the C6 run to its closed-form final state. -/
theorem c6_run_eval : chain_steps cfg6 s6 trace6 = Except.ok sF6 := by
  have hA : chain_steps cfg6 sP2 (List.replicate 9998 benign_input)
      = Except.ok (noburn_form sP2 9998) :=
    noburn_low_run 9998 sP2 rfl (by norm_num [sP2, base_state]) (by norm_num [sP2, base_state])
  have hB : chain_steps cfg6 (noburn_form sP2 9998) (List.replicate 1000 benign_input)
      = Except.ok (noburn_hits_form (noburn_form sP2 9998) 1000) := by
    refine noburn_hits_run 1000 (noburn_form sP2 9998) rfl ?_ ?_ ?_ ?_ ?_ ?_
    · show (5 : ℚ) ≤ 10
      norm_num
    · show 10000 ≤ 2 + 9998
      omega
    · show 2 + 9998 + 1000 ≤ 20000
      omega
    · show 0 + 1000 ≤ 1000
      omega
    · show (1 : ℚ) ≤ 100
      norm_num
    · exact isclose_two _ rfl
  have hC : chain_steps cfg6 (noburn_hits_form (noburn_form sP2 9998) 1000) [benign_input]
      = Except.ok sF6 := by
    refine transition_run (noburn_hits_form (noburn_form sP2 9998) 1000) rfl ?_ ?_ ?_ ?_
    · show 10000 ≤ 2 + 9998 + 1000
      omega
    · show 2 + 9998 + 1000 ≤ 20000
      omega
    · show 0 + 1000 = 1000
      omega
    · exact isclose_two _ rfl
  have e1 := chain_steps_append cfg6 [benign_input, acc5_input]
    (List.replicate 9998 benign_input ++
      (List.replicate 1000 benign_input ++ [benign_input])) s6
  rw [c6_first_two] at e1
  have e1c := e1.trans (exBind_ok sP2 (fun s1 => chain_steps cfg6 s1
    (List.replicate 9998 benign_input ++
      (List.replicate 1000 benign_input ++ [benign_input]))))
  have e2 := chain_steps_append cfg6 (List.replicate 9998 benign_input)
    (List.replicate 1000 benign_input ++ [benign_input]) sP2
  rw [hA] at e2
  have e2c := e2.trans (exBind_ok (noburn_form sP2 9998) (fun s1 => chain_steps cfg6 s1
    (List.replicate 1000 benign_input ++ [benign_input])))
  have e3 := chain_steps_append cfg6 (List.replicate 1000 benign_input)
    [benign_input] (noburn_form sP2 9998)
  rw [hB] at e3
  have e3c := e3.trans (exBind_ok (noburn_hits_form (noburn_form sP2 9998) 1000)
    (fun s1 => chain_steps cfg6 s1 [benign_input]))
  have htr : trace6 = [benign_input, acc5_input] ++
      (List.replicate 9998 benign_input ++
        (List.replicate 1000 benign_input ++ [benign_input])) := rfl
  rw [htr]
  exact e1c.trans (e2c.trans (e3c.trans hC))

/-- C6 (counterexample): on the concrete 11001-iteration run `trace6` the
chain records log-posterior 10 at iteration 1, accepts a posterior-5 state,
and burn-in fires at iteration 11001, re-seeding the best record with the
current posterior 5; the final best posterior (5) does not dominate the
recorded pre-burn-in posterior 10, refuting the claim. -/
theorem c6_counterexample : ¬ c6_claim := by
  intro hcl
  have hmem : (10 : ℚ) ∈ sF6.posterior_log := by
    have hshape : sF6.posterior_log
        = (([(10 : ℚ), 5] ++ List.replicate 9998 (5 : ℚ)) ++
            List.replicate 1000 (5 : ℚ)) ++ [(5 : ℚ)] := rfl
    rw [hshape]
    refine List.mem_append.2 (Or.inl ?_)
    refine List.mem_append.2 (Or.inl ?_)
    refine List.mem_append.2 (Or.inl ?_)
    simp
  have hle := hcl sF6 c6_run_eval 10 hmem
  have hbest : sF6.best_posterior = 5 := rfl
  rw [hbest] at hle
  norm_num at hle

/-- `accept_reject` never touches the best record or the since-reset log. -/
theorem accept_reject_best_log (cfg : Config) (s : State) (inp : StepInput) :
    (accept_reject cfg s inp).1.log_since_reset = s.log_since_reset ∧
    (accept_reject cfg s inp).1.best_posterior = s.best_posterior := by
  obtain ⟨pr, dp1, mp1, l1, dm1, m1, d1, ad⟩ := inp
  unfold accept_reject
  dsimp only
  cases pr <;> cases dp1 <;> cases mp1 <;> cases ad <;> simp

/-- The burn-in detector either leaves the since-reset log and best record
alone, or (on the transition) resets the log to the current posterior and
re-seeds the best record with it. -/
theorem burnin_step_best_log (s : State) :
    (burnin_step s).posterior = s.posterior ∧
    (((burnin_step s).log_since_reset = s.log_since_reset ∧
        (burnin_step s).best_posterior = s.best_posterior) ∨
      ((burnin_step s).log_since_reset = [s.posterior] ∧
        (burnin_step s).best_posterior = s.posterior)) := by
  unfold burnin_step
  dsimp only
  split_ifs <;> simp

/-- The best-record block keeps the log and only raises the best record, to
at least the current posterior. -/
theorem best_step_best_log (s : State) :
    (best_step s).log_since_reset = s.log_since_reset ∧
    s.best_posterior ≤ (best_step s).best_posterior ∧
    s.posterior ≤ (best_step s).best_posterior := by
  unfold best_step
  split_ifs with h
  · exact ⟨rfl, le_of_lt h, le_refl _⟩
  · exact ⟨rfl, le_refl _, not_lt.1 h⟩

/-- The acceptance-rate block touches neither the log nor the best record. -/
theorem window_step_best_log (w : ℕ) (s : State) :
    (window_step w s).log_since_reset = s.log_since_reset ∧
    (window_step w s).best_posterior = s.best_posterior := by
  unfold window_step
  split_ifs <;> exact ⟨rfl, rfl⟩

/-- One successful `update` preserves the best-dominates invariant. -/
theorem update_ok_best_log (cfg : Config) (s s2 : State)
    (h : update cfg s = Except.ok s2) (hinv : BestDominatesSinceReset s) :
    BestDominatesSinceReset s2 := by
  have hrl : (record_step s).log_since_reset = s.log_since_reset ++ [s.posterior] := rfl
  have hrp : (record_step s).posterior = s.posterior := rfl
  have hrb : (record_step s).best_posterior = s.best_posterior := rfl
  obtain ⟨hbp, hbl⟩ := burnin_step_best_log (record_step s)
  obtain ⟨ml, mb1, mb2⟩ := best_step_best_log (burnin_step (record_step s))
  have hm : BestDominatesSinceReset (best_step (burnin_step (record_step s))) := by
    intro q hq
    rw [ml] at hq
    rcases hbl with ⟨hl, hb⟩ | ⟨hl, hb⟩
    · rw [hl, hrl] at hq
      rcases List.mem_append.1 hq with hq' | hq'
      · refine le_trans (hinv q hq') ?_
        rw [← hrb, ← hb]
        exact mb1
      · rcases List.mem_singleton.1 hq' with rfl
        rw [← hrp, ← hbp]
        exact mb2
    · rw [hl, hrp] at hq
      rcases List.mem_singleton.1 hq with rfl
      rw [← hrp, ← hbp]
      exact mb2
  obtain ⟨wl, wb⟩ :=
    window_step_best_log cfg.update_plot_every (best_step (burnin_step (record_step s)))
  unfold update multiplier_step at h
  split_ifs at h with h1
  · cases hkw : cfg.kwargs_multiplier with
    | none => rw [hkw] at h; cases h
    | some mq =>
        rw [hkw] at h
        simp only [Except.map] at h
        cases h
        intro q hq
        have hq' : q ∈ (window_step cfg.update_plot_every
            (best_step (burnin_step (record_step s)))).log_since_reset := hq
        rw [wl] at hq'
        have hle := hm q hq'
        rw [← wb] at hle
        exact hle
  · simp only [Except.map] at h
    cases h
    intro q hq
    have hq' : q ∈ (window_step cfg.update_plot_every
        (best_step (burnin_step (record_step s)))).log_since_reset := hq
    rw [wl] at hq'
    have hle := hm q hq'
    rw [← wb] at hle
    exact hle

/-- C6 (amended): along any successful run, the tracked best posterior is a
running maximum of the log-posteriors recorded since the last reset of the
best record -- the burn-in transition re-seeds the best record from the
current state and restarts that log, so values recorded before burn-in are
not covered.  A freshly initialised chain satisfies the invariant (empty
log, best seeded from the current posterior). -/
theorem c6_best_since_reset (cfg : Config) (trace : List StepInput) :
    ∀ (s0 sF : State), chain_steps cfg s0 trace = Except.ok sF →
      BestDominatesSinceReset s0 → BestDominatesSinceReset sF := by
  induction trace with
  | nil =>
      intro s0 sF h hinv
      cases h
      exact hinv
  | cons inp rest ih =>
      intro s0 sF h hinv
      obtain ⟨p, hp, hrest⟩ := chain_steps_cons_ok cfg s0 sF inp rest h
      obtain ⟨al, ab⟩ := accept_reject_best_log cfg s0 inp
      have hinva : BestDominatesSinceReset (accept_reject cfg s0 inp).1 := by
        intro q hq
        rw [al] at hq
        rw [ab]
        exact hinv q hq
      unfold chain_step at hp
      cases hu : update cfg (accept_reject cfg s0 inp).1 with
      | error e => rw [hu] at hp; cases hp
      | ok s2 =>
          rw [hu] at hp
          simp only [Except.map] at hp
          cases hp
          exact ih _ sF hrest (update_ok_best_log cfg _ _ hu hinva)

/-- C6 (witness): the amended invariant instantiated on a concrete one-step
run of a freshly burned-in chain. -/
theorem c6_witness : BestDominatesSinceReset (benign_form sWit 1) := by
  have hrun : chain_steps cfgB sWit (List.replicate 1 benign_input)
      = Except.ok (benign_form sWit 1) :=
    benign_burned_run cfgB rfl 1 sWit rfl rfl (by norm_num [sWit, base_state])
  refine c6_best_since_reset cfgB (List.replicate 1 benign_input) sWit
    (benign_form sWit 1) hrun ?_
  intro q hq
  simp [sWit, base_state] at hq

/-- An already-burned-in chain passes the detector untouched. -/
theorem burnin_step_burned (s : State) (h : s.burned_in = true) : burnin_step s = s := by
  unfold burnin_step
  rw [if_pos h]

/-- `accept_reject` never touches the burn-in flag, the recorded burn-in
iteration, or its write log. -/
theorem accept_reject_burnin_fields (cfg : Config) (s : State) (inp : StepInput) :
    (accept_reject cfg s inp).1.burned_in = s.burned_in ∧
    (accept_reject cfg s inp).1.burned_in_iteration = s.burned_in_iteration ∧
    (accept_reject cfg s inp).1.burnin_iteration_writes = s.burnin_iteration_writes := by
  obtain ⟨pr, dp1, mp1, l1, dm1, m1, d1, ad⟩ := inp
  unfold accept_reject
  dsimp only
  cases pr <;> cases dp1 <;> cases mp1 <;> cases ad <;> simp

/-- After the detector, no block of `update` touches the burn-in flag, the
recorded burn-in iteration, or its write log. -/
theorem update_ok_burnin_fields (cfg : Config) (s s2 : State)
    (h : update cfg s = Except.ok s2) :
    s2.burned_in = (burnin_step (record_step s)).burned_in ∧
    s2.burned_in_iteration = (burnin_step (record_step s)).burned_in_iteration ∧
    s2.burnin_iteration_writes = (burnin_step (record_step s)).burnin_iteration_writes := by
  have hw : ∀ t : State,
      (window_step cfg.update_plot_every t).burned_in = t.burned_in ∧
      (window_step cfg.update_plot_every t).burned_in_iteration = t.burned_in_iteration ∧
      (window_step cfg.update_plot_every t).burnin_iteration_writes
        = t.burnin_iteration_writes := by
    intro t
    unfold window_step
    split_ifs <;> exact ⟨rfl, rfl, rfl⟩
  have hbs : ∀ t : State,
      (best_step t).burned_in = t.burned_in ∧
      (best_step t).burned_in_iteration = t.burned_in_iteration ∧
      (best_step t).burnin_iteration_writes = t.burnin_iteration_writes := by
    intro t
    unfold best_step
    split_ifs <;> exact ⟨rfl, rfl, rfl⟩
  obtain ⟨w1, w2, w3⟩ := hw (best_step (burnin_step (record_step s)))
  obtain ⟨b1, b2, b3⟩ := hbs (burnin_step (record_step s))
  unfold update multiplier_step at h
  split_ifs at h with h1
  · cases hkw : cfg.kwargs_multiplier with
    | none => rw [hkw] at h; cases h
    | some m =>
        rw [hkw] at h
        simp only [Except.map] at h
        cases h
        refine ⟨?_, ?_, ?_⟩
        · show (window_step cfg.update_plot_every
            (best_step (burnin_step (record_step s)))).burned_in = _
          rw [w1, b1]
        · show (window_step cfg.update_plot_every
            (best_step (burnin_step (record_step s)))).burned_in_iteration = _
          rw [w2, b2]
        · show (window_step cfg.update_plot_every
            (best_step (burnin_step (record_step s)))).burnin_iteration_writes = _
          rw [w3, b3]
  · simp only [Except.map] at h
    cases h
    refine ⟨?_, ?_, ?_⟩
    · show (window_step cfg.update_plot_every
        (best_step (burnin_step (record_step s)))).burned_in = _
      rw [w1, b1]
    · show (window_step cfg.update_plot_every
        (best_step (burnin_step (record_step s)))).burned_in_iteration = _
      rw [w2, b2]
    · show (window_step cfg.update_plot_every
        (best_step (burnin_step (record_step s)))).burnin_iteration_writes = _
      rw [w3, b3]

/-- The detector preserves the write-once invariant: it either does nothing,
or fires exactly once, recording the current iteration as the burn-in
iteration and appending that single write. -/
theorem burnin_step_write_invariant (s : State) (hinv : BurninWriteInvariant s) :
    BurninWriteInvariant (burnin_step s) := by
  rcases hinv with ⟨hb, hw⟩ | ⟨hb, hw⟩
  · unfold burnin_step
    simp only [hb, Bool.false_eq_true, if_false]
    split_ifs with h1 h2 h3
    · right
      refine ⟨rfl, ?_⟩
      show s.burnin_iteration_writes ++ [s.iteration] = [s.iteration]
      rw [hw]
      rfl
    · left
      exact ⟨rfl, hw⟩
    · right
      refine ⟨rfl, ?_⟩
      show s.burnin_iteration_writes ++ [s.iteration] = [s.iteration]
      rw [hw]
      rfl
    · left
      exact ⟨hb, hw⟩
  · rw [burnin_step_burned s hb]
    exact Or.inr ⟨hb, hw⟩

/-- C7: along any successful run of the sampling loop, once the burn-in flag
is true it stays true and neither the recorded burn-in iteration nor its
write log changes again; and starting from a not-yet-burned-in state with no
writes, the run ends either still unburned with no writes, or burned in with
exactly one write, holding the recorded burn-in iteration (the detector
assigns it the iteration at which the transition fires). -/
theorem c7_burnin_monotone (cfg : Config) (trace : List StepInput) :
    ∀ s0 sF, chain_steps cfg s0 trace = Except.ok sF →
      (s0.burned_in = true →
        sF.burned_in = true ∧
        sF.burned_in_iteration = s0.burned_in_iteration ∧
        sF.burnin_iteration_writes = s0.burnin_iteration_writes) ∧
      (BurninWriteInvariant s0 → BurninWriteInvariant sF) := by
  induction trace with
  | nil =>
      intro s0 sF h
      cases h
      exact ⟨fun hb => ⟨hb, rfl, rfl⟩, fun hinv => hinv⟩
  | cons inp rest ih =>
      intro s0 sF h
      obtain ⟨p, hp, hrest⟩ := chain_steps_cons_ok cfg s0 sF inp rest h
      obtain ⟨a1, a2, a3⟩ := accept_reject_burnin_fields cfg s0 inp
      unfold chain_step at hp
      cases hu : update cfg (accept_reject cfg s0 inp).1 with
      | error e => rw [hu] at hp; cases hp
      | ok s2 =>
          rw [hu] at hp
          simp only [Except.map] at hp
          cases hp
          obtain ⟨u1, u2, u3⟩ := update_ok_burnin_fields cfg _ s2 hu
          obtain ⟨ihm, ihi⟩ := ih s2 sF hrest
          constructor
          · intro hb0
            have hbr : (record_step (accept_reject cfg s0 inp).1).burned_in = true := by
              show (accept_reject cfg s0 inp).1.burned_in = true
              rw [a1]
              exact hb0
            have hbb := burnin_step_burned _ hbr
            have h2b : s2.burned_in = true := by rw [u1, hbb]; exact hbr
            have h2i : s2.burned_in_iteration = s0.burned_in_iteration := by
              rw [u2, hbb]
              show (accept_reject cfg s0 inp).1.burned_in_iteration = _
              rw [a2]
            have h2w : s2.burnin_iteration_writes = s0.burnin_iteration_writes := by
              rw [u3, hbb]
              show (accept_reject cfg s0 inp).1.burnin_iteration_writes = _
              rw [a3]
            obtain ⟨f1, f2, f3⟩ := ihm h2b
            exact ⟨f1, by rw [f2, h2i], by rw [f3, h2w]⟩
          · intro hinv
            refine ihi ?_
            have hinva : BurninWriteInvariant (accept_reject cfg s0 inp).1 := by
              rcases hinv with ⟨hb, hw⟩ | ⟨hb, hw⟩
              · exact Or.inl ⟨by rw [a1]; exact hb, by rw [a3]; exact hw⟩
              · exact Or.inr ⟨by rw [a1]; exact hb, by rw [a3, a2]; exact hw⟩
            have hinvr : BurninWriteInvariant (record_step (accept_reject cfg s0 inp).1) := by
              rcases hinva with ⟨hb, hw⟩ | ⟨hb, hw⟩
              · exact Or.inl ⟨hb, hw⟩
              · exact Or.inr ⟨hb, hw⟩
            have hinvb := burnin_step_write_invariant _ hinvr
            rcases hinvb with ⟨hb, hw⟩ | ⟨hb, hw⟩
            · exact Or.inl ⟨by rw [u1]; exact hb, by rw [u3]; exact hw⟩
            · exact Or.inr ⟨by rw [u1]; exact hb, by rw [u3, u2]; exact hw⟩

/-- C7 (witness): the monotonicity/write-once theorem instantiated on a
concrete one-iteration run from a fresh not-burned-in chain. -/
theorem c7_witness : BurninWriteInvariant sC7 := by
  have hrun : chain_steps cfgB base_state [benign_input] = Except.ok sC7 := by
    norm_num [chain_steps, chain_step, accept_reject, update, multiplier_step,
      window_step, best_step, burnin_step, record_step, posteriors_step,
      benign_input, base_state, sC7, cfgB, inference1d_kwargs_attribute,
      Except.map, Except.bind, Bind.bind, isclose, target_misfit, decide_eq_true_eq]
  exact (c7_burnin_monotone cfgB [benign_input] base_state sC7 hrun).2
    (Or.inl ⟨rfl, rfl⟩)

/-- C8 (amended): for every counts vector and percent strictly between 0 and
100, the credible-interval query returns the median together with the pair
of percentiles at levels `q / 2` and `100 - q / 2` where
`q = min(percent, 100 - percent)` -- the source symmetrises the percentage
first, so for `percent > 50` the levels are `(100 - percent) / 2` and
`100 - (100 - percent) / 2`, not `percent / 2` and `100 - percent / 2`; each
percentile is the cell centre located by cumulative-sum followed by a
`searchsorted` search with an off-the-end clamp. -/
theorem c8_credible_intervals (centres counts : List ℚ) (p : ℚ)
    (h0 : 0 < p) (h100 : p < 100) :
    credible_intervals centres counts p
      = (percentile centres counts 50,
         percentile centres counts (min p (100 - p) / 2),
         percentile centres counts (100 - min p (100 - p) / 2)) ∧
    (∀ q : ℚ, percentile centres counts q
      = centres.getD
          (if searchsorted_left (cdf_values counts) (q * (1 / 100)) = counts.length
            then counts.length - 1
            else searchsorted_left (cdf_values counts) (q * (1 / 100))) 0) := by
  constructor
  · unfold credible_intervals
    rw [show (1 / 2 : ℚ) * min p (100 - p) = min p (100 - p) / 2 from by ring]
  · intro q
    rfl

/-- C8 (counterexample): at `percent = 90` on four unit cells, the source
returns the centres at the 5th and 95th percentiles, `(0, 3)`, while the
claim's levels `45` and `55` select `(1, 2)`. -/
theorem c8_counterexample :
    credible_intervals centres4 counts4 90 = (1, 0, 3) ∧
    credible_intervals_spec centres4 counts4 90 = (1, 1, 2) ∧
    credible_intervals centres4 counts4 90 ≠ credible_intervals_spec centres4 counts4 90 := by
  refine ⟨?_, ?_, ?_⟩
  · norm_num [credible_intervals, percentile, percentile_index, cdf_values,
      cumsum, searchsorted_left, centres4, counts4, min_def]
  · norm_num [credible_intervals_spec, percentile, percentile_index, cdf_values,
      cumsum, searchsorted_left, centres4, counts4]
  · norm_num [credible_intervals, credible_intervals_spec, percentile,
      percentile_index, cdf_values, cumsum, searchsorted_left, centres4, counts4, min_def]

/-- C8 (witness): the amended statement instantiated at `percent = 90` on
the four unit cells. -/
theorem c8_witness :
    credible_intervals centres4 counts4 90
      = (percentile centres4 counts4 50,
         percentile centres4 counts4 (min 90 (100 - 90) / 2),
         percentile centres4 counts4 (100 - min 90 (100 - 90) / 2)) :=
  (c8_credible_intervals centres4 counts4 90 (by norm_num) (by norm_num)).1

/-- C9: the precomputed Hankel abscissae have shape `(F, 120)` and `(F, 140)`
(the index types), with
`lamda0[f, j] = 10 ^ (-8.3885 + j * 0.0904226468670) / r_f` and
`lamda1[f, j] = 10 ^ (-7.91001919 + j * 0.087967143957) / r_f` where `r_f`
is the transmitter-receiver loop separation at frequency `f`; and the fixed
filter-weight vectors `w0` and `w1` have exactly 120 and 140 entries. -/
theorem c9_hankel_abscissae :
    (∀ (F : ℕ) (loopSep : Fin F → ℝ) (f : Fin F) (j : Fin 120),
      lamda0 F loopSep f j = tenPow (-8.3885 + (j : ℕ) * 0.0904226468670) / loopSep f) ∧
    (∀ (F : ℕ) (loopSep : Fin F → ℝ) (f : Fin F) (j : Fin 140),
      lamda1 F loopSep f j = tenPow (-7.91001919 + (j : ℕ) * 0.087967143957) / loopSep f) ∧
    w0.length = 120 ∧ w1.length = 140 := by
  refine ⟨?_, ?_, rfl, rfl⟩
  · intro F loopSep f j
    show tenPow ((j : ℕ) * 9.04226468670e-2 + (-8.3885)) * (1 / loopSep f) = _
    rw [mul_one_div]
    congr 1
    ring
  · intro F loopSep f j
    show tenPow ((j : ℕ) * 8.7967143957e-2 + (-7.91001919)) * (1 / loopSep f) = _
    rw [mul_one_div]
    congr 1
    ring

/-- C10 (amended): cloning an `FdemDataPoint` assigns the system list by
reference -- the copy holds the very same `FdemSystem` references as the
original; and calling `deepcopy` directly on an `FdemSystem` raises -- but
with `AttributeError`, because `__deepcopy__` evaluates the never-assigned
`self.fileName` before the constructor call; had that attribute existed, the
four-argument call to the three-parameter constructor would have raised
`TypeError`. -/
theorem c10_deepcopy_semantics :
    (∀ (dp : FdemDataPointObj) (fresh_id : ℕ),
      (fdemDataPoint_deepcopy dp fresh_id).system = dp.system) ∧
    fdemSystem_dunder_deepcopy = Except.error (PyErr.attributeError PyName.fileName) ∧
    call_fdemSystem_init 4 = Except.error PyErr.typeErrorArity := by
  exact ⟨fun dp fresh_id => rfl, rfl, rfl⟩

/-- C10 (counterexample): `deepcopy` of an `FdemSystem` does not raise
`TypeError` as the claim says: the raised exception is `AttributeError` on
`fileName`, reached before any arity check. -/
theorem c10_counterexample :
    exErr? fdemSystem_dunder_deepcopy = some (PyErr.attributeError PyName.fileName) ∧
    exErr? fdemSystem_dunder_deepcopy ≠ some PyErr.typeErrorArity := by
  decide
